import Mathlib

/-!
Verification development for the gatrr deployment-configuration compiler.

This file shallowly embeds the pure TypeScript functions of the repository
(deployment-config inference and validation, Traefik dynamic-config
generation, oauth2-proxy environment generation, Keycloak realm-import
generation, portal-descriptor generation) as executable Lean definitions and
proves the specification claims about them.

Modelling conventions:
- JavaScript strings are Lean `String`s (sequences of Unicode scalar values).
- JavaScript objects used as ordered string-keyed dictionaries are modelled
  as association lists `List (String × _)` in insertion order; an optional
  object field that the source omits when absent is an `Option`, and an
  optional `middlewares` array that the source omits when empty is `[]`.
- Exceptions (`throw new Error(...)`) are modelled with `Except String`.
- `a.localeCompare(b, "en-US")` (no collator options) is modelled as the
  code-point lexicographic order on strings; only its totality and
  antisymmetry matter for the theorems below.
- `Array.prototype.sort` is modelled as a stable insertion sort by the
  comparator; the source only sorts lists whose keys are pairwise distinct
  or uses the result order-insensitively, so the choice of algorithm is
  irrelevant.
-/

/-- Stable insertion of `x` into `l`: `x` goes before the first element `y`
with `le x y`. -/
def insertBy {α : Type} (le : α → α → Bool) (x : α) : List α → List α
  | [] => [x]
  | y :: ys => if le x y then x :: y :: ys else y :: insertBy le x ys

/-- Stable insertion sort by a boolean comparator (model for JS `sort`). -/
def sortBy {α : Type} (le : α → α → Bool) (l : List α) : List α :=
  l.foldr (insertBy le) []

/-- JS `Array.prototype.join(sep)`. -/
def jsJoin (sep : String) : List String → String
  | [] => ""
  | [x] => x
  | x :: y :: xs => x ++ sep ++ jsJoin sep (y :: xs)

/-- First occurrence of each element, in order (model for building a JS
`Set`/`Map` key sequence by repeated insertion). -/
def dedupFirst : List String → List String
  | [] => []
  | h :: t => h :: dedupFirst (t.filter (fun x => x ≠ h))
termination_by l => l.length
decreasing_by
simp only [List.length_cons]
exact Nat.lt_succ_of_le (List.length_filter_le _ _)

/-- JS object field read `m[k]` on a string-keyed record. -/
def recordGet (m : List (String × String)) (k : String) : Option String :=
  (m.find? (fun p => p.1 = k)).map (fun p => p.2)

-- ===========================================================================
-- src/infra/pulumi/src/constants.ts
-- ===========================================================================

/-- Reserved hosts used by core infrastructure (`RESERVED_HOSTS`). -/
def RESERVED_HOSTS : List String := ["portal", "keycloak"]

def isReservedHost (host : String) : Bool := RESERVED_HOSTS.contains host

def isLowerAlpha (c : Char) : Bool := decide ('a' ≤ c) && decide (c ≤ 'z')

def isDigitChar (c : Char) : Bool := decide ('0' ≤ c) && decide (c ≤ '9')

def isSlugInner (c : Char) : Bool := isLowerAlpha c || isDigitChar c || decide (c = '-')

/-- Tail of a slug after its first character: middle characters are
`[a-z0-9-]` and the final character is `[a-z0-9]`. -/
def slugTail : List Char → Bool
  | [] => true
  | [c] => isLowerAlpha c || isDigitChar c
  | c :: d :: rest => isSlugInner c && slugTail (d :: rest)

/-- `isValidSlug`: the regex `^[a-z][a-z0-9-]*[a-z0-9]$|^[a-z]$`. -/
def isValidSlug (s : String) : Bool :=
  match s.data with
  | [] => false
  | [c] => isLowerAlpha c
  | c :: d :: rest => isLowerAlpha c && slugTail (d :: rest)

-- ===========================================================================
-- src/infra/pulumi/src/deployment-config/types.ts
-- ===========================================================================

/-- `AuthType` from the descriptor schema: `"none" | "oauth2-proxy" | "portal"`. -/
inductive AuthType where
  | none
  | oauth2Proxy
  | portal
deriving DecidableEq, Repr

/-- `UserConfig`: bootstrap user entry of the deployment file. -/
structure UserConfig where
  username : String
  email : String
  firstName : Option String := Option.none
  lastName : Option String := Option.none
  roles : List String
deriving DecidableEq, Repr

/-- `ServiceConfig`: raw per-service entry; all fields optional. -/
structure ServiceConfig where
  portalName : Option String := Option.none
  host : Option String := Option.none
  requiredRoles : Option (List String) := Option.none
  authType : Option AuthType := Option.none
  group : Option String := Option.none
  icon : Option String := Option.none
  description : Option String := Option.none
deriving DecidableEq, Repr

/-- `DeploymentConfigFile`: raw declaration; `services` keeps the JSON object
entry order (`Object.entries`). -/
structure DeploymentConfigFile where
  roles : Option (List String) := Option.none
  users : Option (List UserConfig) := Option.none
  services : List (String × ServiceConfig)
deriving DecidableEq, Repr

/-- `ResolvedServiceConfig`: a service after inference. -/
structure ResolvedServiceConfig where
  serviceId : String
  portalName : String
  host : String
  authType : AuthType
  requiredRoles : List String
  group : Option String := Option.none
  icon : Option String := Option.none
  description : Option String := Option.none
deriving DecidableEq, Repr

/-- `ResolvedDeploymentConfig`: the fully resolved configuration. -/
structure ResolvedDeploymentConfig where
  stackName : String
  roles : List String
  users : List UserConfig
  services : List ResolvedServiceConfig
deriving DecidableEq, Repr

/-- `ValidationError`: `{code, message, path}`; the validator always sets a
path, so `path` is a plain string here (`""` models a falsy path). -/
structure ValidationError where
  code : String
  message : String
  path : String
deriving DecidableEq, Repr

/-- `ValidationResult`: `{valid: true, config} | {valid: false, errors}`. -/
inductive ValidationResult where
  | valid (config : ResolvedDeploymentConfig)
  | invalid (errors : List ValidationError)
deriving DecidableEq, Repr

def isValidServiceId (id : String) : Bool := isValidSlug id

def isValidHost (host : String) : Bool := isValidSlug host

def isValidRole (role : String) : Bool := isValidSlug role

def isValidUsername (username : String) : Bool := isValidSlug username

/-- JS `\s` whitespace class (the code points relevant to `isValidEmail`). -/
def isJsWhitespace (c : Char) : Bool :=
  c.toNat ∈ [0x20, 0x9, 0xA, 0xB, 0xC, 0xD, 0xA0, 0x1680, 0x2028, 0x2029,
    0x202F, 0x205F, 0x3000, 0xFEFF] || (0x2000 ≤ c.toNat && c.toNat ≤ 0x200A)

/-- `isValidEmail`: the regex `^[^\s@]+@[^\s@]+\.[^\s@]+$` — a nonempty
`@`-free, whitespace-free local part, one `@`, and a tail that is `@`-free,
whitespace-free and has a dot at an interior position. -/
def isValidEmail (email : String) : Bool :=
  let ok : Char → Bool := fun c => !(isJsWhitespace c) && decide (c ≠ '@')
  match email.data.span (fun c => c ≠ '@') with
  | (loc, rest) =>
    match rest with
    | [] => false
    | _ :: tail =>
      decide (loc ≠ []) && loc.all ok && decide (tail ≠ []) && tail.all ok &&
        ((tail.dropLast).drop 1).contains '.'

-- ===========================================================================
-- src/infra/pulumi/src/deployment-config/validation.ts
-- ===========================================================================

/-- Rule 1 (`validateServiceExists`): the service id is in the catalog. -/
def validateServiceExists (serviceId : String) (catalog : List String) :
    Option ValidationError :=
  if catalog.contains serviceId then Option.none
  else
    let available := if catalog.length > 0 then jsJoin ", " catalog else "(none)"
    Option.some
      { code := "UNKNOWN_SERVICE"
        message := "Unknown service \"" ++ serviceId ++ "\". Available services: " ++ available
        path := "services." ++ serviceId }

/-- Rule 2 (`validateServiceIdFormat`): the service id is a slug. -/
def validateServiceIdFormat (serviceId : String) : Option ValidationError :=
  if isValidServiceId serviceId then Option.none
  else
    Option.some
      { code := "INVALID_SERVICE_ID"
        message := "Invalid serviceId \"" ++ serviceId ++ "\": must start with lowercase letter and contain only lowercase letters, numbers, and hyphens"
        path := "services." ++ serviceId }

/-- Rule 2 (`validateHostFormat`): the host is a slug. -/
def validateHostFormat (host : String) (serviceId : String) : Option ValidationError :=
  if isValidHost host then Option.none
  else
    Option.some
      { code := "INVALID_HOST"
        message := "Invalid host \"" ++ host ++ "\" for service \"" ++ serviceId ++ "\": must start with lowercase letter and contain only lowercase letters, numbers, and hyphens"
        path := "services." ++ serviceId ++ ".host" }

/-- Rule 3 (`validateNotReservedHost`): the host is not reserved. -/
def validateNotReservedHost (host : String) (serviceId : String) : Option ValidationError :=
  if !isReservedHost host then Option.none
  else
    Option.some
      { code := "RESERVED_HOST"
        message := "Reserved host \"" ++ host ++ "\" cannot be used by service \"" ++ serviceId ++ "\". Reserved hosts: portal, keycloak"
        path := "services." ++ serviceId ++ ".host" }

/-- Rules 4-6 (`validateAuthTypeRolesConsistency`). -/
def validateAuthTypeRolesConsistency (authType : AuthType) (requiredRoles : List String)
    (serviceId : String) : Option ValidationError :=
  let hasRoles := requiredRoles.length > 0
  if authType = AuthType.none ∧ hasRoles then
    Option.some
      { code := "AUTH_NONE_WITH_ROLES"
        message := "Service \"" ++ serviceId ++ "\" has authType \"none\" but requiredRoles [" ++ jsJoin ", " requiredRoles ++ "]. Remove requiredRoles or change authType."
        path := "services." ++ serviceId }
  else if authType = AuthType.oauth2Proxy ∧ ¬hasRoles then
    Option.some
      { code := "OAUTH2_PROXY_WITHOUT_ROLES"
        message := "Service \"" ++ serviceId ++ "\" has authType \"oauth2-proxy\" but no requiredRoles. Add requiredRoles or change authType to \"none\"."
        path := "services." ++ serviceId }
  else if authType = AuthType.portal ∧ ¬hasRoles then
    Option.some
      { code := "PORTAL_WITHOUT_ROLES"
        message := "Service \"" ++ serviceId ++ "\" has authType \"portal\" but no requiredRoles. Add requiredRoles or change authType to \"none\"."
        path := "services." ++ serviceId }
  else Option.none

/-- The error pushed by `validateRolesInAllowList` for one missing role. -/
def roleNotInAllowListError (role : String) (allowList : List String)
    (context : String) (path : String) : ValidationError :=
  { code := "ROLE_NOT_IN_ALLOWLIST"
    message := "Role \"" ++ role ++ "\" used by " ++ context ++ " is not in roles allow-list [" ++ jsJoin ", " allowList ++ "]. Add \"" ++ role ++ "\" to roles array or remove from " ++ context ++ "."
    path := path }

/-- Rule 7 (`validateRolesInAllowList`): one error per referenced role absent
from the allow-list. -/
def validateRolesInAllowList (referencedRoles allowList : List String)
    (context : String) (path : String) : List ValidationError :=
  referencedRoles.filterMap (fun role =>
    if allowList.contains role then Option.none
    else Option.some (roleNotInAllowListError role allowList context path))

/-- Rule 8 (`validateUsersLocalOnly`): users only on the `"local"` stack. -/
def validateUsersLocalOnly (users : List UserConfig) (stackName : String) :
    Option ValidationError :=
  if users.length = 0 then Option.none
  else if stackName = "local" then Option.none
  else
    Option.some
      { code := "USERS_NOT_LOCAL"
        message := "users[] is only allowed on \"local\" stack, not \"" ++ stackName ++ "\". Remove users from deployment." ++ stackName ++ ".json."
        path := "users" }

/-- `validateUserConfig`: username slug, email shape, at least one role, and
role slug format. -/
def validateUserConfig (user : UserConfig) (index : Nat) : List ValidationError :=
  let path := "users[" ++ toString index ++ "]"
  (if isValidUsername user.username then []
   else [{ code := "INVALID_USERNAME"
           message := "Invalid username \"" ++ user.username ++ "\": must start with lowercase letter and contain only lowercase letters, numbers, and hyphens"
           path := path ++ ".username" }]) ++
  (if isValidEmail user.email then []
   else [{ code := "INVALID_EMAIL"
           message := "Invalid email \"" ++ user.email ++ "\" for user \"" ++ user.username ++ "\""
           path := path ++ ".email" }]) ++
  (if user.roles.length = 0 then
     [{ code := "USER_NO_ROLES"
        message := "User \"" ++ user.username ++ "\" has no roles. Each user must have at least one role."
        path := path ++ ".roles" }]
   else []) ++
  user.roles.filterMap (fun role =>
    if isValidRole role then Option.none
    else Option.some
      { code := "INVALID_ROLE_FORMAT"
        message := "Invalid role \"" ++ role ++ "\" for user \"" ++ user.username ++ "\": must start with lowercase letter and contain only lowercase letters, numbers, and hyphens"
        path := path ++ ".roles" })

/-- `validateRoleFormat`: slug format of one entry of the explicit role list. -/
def validateRoleFormat (role : String) (index : Nat) : Option ValidationError :=
  if isValidRole role then Option.none
  else
    Option.some
      { code := "INVALID_ROLE_FORMAT"
        message := "Invalid role \"" ++ role ++ "\" at roles[" ++ toString index ++ "]: must start with lowercase letter and contain only lowercase letters, numbers, and hyphens"
        path := "roles[" ++ toString index ++ "]" }

/-- One step of the duplicate-host accumulation: the JS `Map` keyed by host
keeps first-insertion key order and appends each service id to its group. -/
def addHost (acc : List (String × List String)) (s : ResolvedServiceConfig) :
    List (String × List String) :=
  if acc.any (fun p => p.1 = s.host) then
    acc.map (fun p => if p.1 = s.host then (p.1, p.2 ++ [s.serviceId]) else p)
  else acc ++ [(s.host, [s.serviceId])]

/-- The `hostCounts` map of `validateDeploymentConfig`, as an ordered list. -/
def hostGroups (services : List ResolvedServiceConfig) : List (String × List String) :=
  services.foldl addHost []

/-- The aggregate `DUPLICATE_HOST` error for one host. -/
def duplicateHostError (host : String) (serviceIds : List String) : ValidationError :=
  { code := "DUPLICATE_HOST"
    message := "Duplicate host \"" ++ host ++ "\" used by services: " ++ jsJoin ", " serviceIds ++ ". Each service must have a unique host."
    path := "services" }

/-- The error list accumulated for one resolved service. -/
def serviceErrors (config : ResolvedDeploymentConfig) (serviceCatalog : List String)
    (s : ResolvedServiceConfig) : List ValidationError :=
  (validateServiceIdFormat s.serviceId).toList ++
  (validateServiceExists s.serviceId serviceCatalog).toList ++
  (validateHostFormat s.host s.serviceId).toList ++
  (validateNotReservedHost s.host s.serviceId).toList ++
  (validateAuthTypeRolesConsistency s.authType s.requiredRoles s.serviceId).toList ++
  (if config.roles.length > 0 ∧ s.requiredRoles.length > 0 then
     validateRolesInAllowList s.requiredRoles config.roles
       ("service \"" ++ s.serviceId ++ "\"")
       ("services." ++ s.serviceId ++ ".requiredRoles")
   else [])

/-- The error list accumulated for one user (format checks plus the
allow-list check that runs only when explicit roles are present). -/
def userErrors (config : ResolvedDeploymentConfig) (i : Nat) (user : UserConfig) :
    List ValidationError :=
  validateUserConfig user i ++
  (if config.roles.length > 0 then
     validateRolesInAllowList user.roles config.roles
       ("user \"" ++ user.username ++ "\"")
       ("users[" ++ toString i ++ "].roles")
   else [])

/-- All errors collected by `validateDeploymentConfig`, in push order. -/
def collectedErrors (config : ResolvedDeploymentConfig) (serviceCatalog : List String) :
    List ValidationError :=
  (config.roles.enum.filterMap (fun p => validateRoleFormat p.2 p.1)) ++
  (validateUsersLocalOnly config.users config.stackName).toList ++
  (config.users.enum.flatMap (fun p => userErrors config p.1 p.2)) ++
  (config.services.flatMap (serviceErrors config serviceCatalog)) ++
  ((hostGroups config.services).filterMap (fun p =>
    if p.2.length > 1 then Option.some (duplicateHostError p.1 p.2) else Option.none))

/-- `validateDeploymentConfig`: runs every rule, accumulates all errors, and
returns `valid` exactly when none were produced. -/
def validateDeploymentConfig (config : ResolvedDeploymentConfig)
    (serviceCatalog : List String) : ValidationResult :=
  let errors := collectedErrors config serviceCatalog
  if errors.length = 0 then ValidationResult.valid config
  else ValidationResult.invalid errors

/-- The formatted line `  - message (at path)` of `assertValidDeploymentConfig`. -/
def formatValidationError (e : ValidationError) : String :=
  "  - " ++ e.message ++ (if e.path ≠ "" then " (at " ++ e.path ++ ")" else "")

/-- `assertValidDeploymentConfig`: throws with all formatted messages joined
by newlines when validation fails. -/
def assertValidDeploymentConfig (config : ResolvedDeploymentConfig)
    (serviceCatalog : List String) : Except String Unit :=
  match validateDeploymentConfig config serviceCatalog with
  | ValidationResult.valid _ => Except.ok ()
  | ValidationResult.invalid errors =>
    Except.error ("Deployment configuration validation failed:\n" ++
      jsJoin "\n" (errors.map formatValidationError))

-- ===========================================================================
-- src/unnamed/part_010 (deployment-config inference rules)
-- ===========================================================================

/-- `capitalizeWord`: first character uppercased, rest lowercased (ASCII case
mapping models `toUpperCase`/`toLowerCase` on the slug inputs used here). -/
def capitalizeWord (word : String) : String :=
  match word.data with
  | [] => word
  | c :: rest => String.mk (c.toUpper :: rest.map Char.toLower)

/-- `inferPortalName`: split on hyphen, title-case, rejoin with spaces. -/
def inferPortalName (serviceId : String) : String :=
  if serviceId = "" then ""
  else jsJoin " " ((serviceId.splitOn "-").map capitalizeWord)

/-- `inferHost`: the identity. -/
def inferHost (serviceId : String) : String := serviceId

/-- `inferAuthType`: `none` when roles are absent or empty, else
`oauth2-proxy`. -/
def inferAuthType (requiredRoles : Option (List String)) : AuthType :=
  match requiredRoles with
  | Option.none => AuthType.none
  | Option.some [] => AuthType.none
  | Option.some (_ :: _) => AuthType.oauth2Proxy

/-- String sort used for role lists (JS default `sort`, modelled as the
code-point order). -/
def sortStrings (l : List String) : List String :=
  sortBy (fun a b => decide (a ≤ b)) l

/-- `computeRoles`: explicit roles sorted, otherwise the sorted deduplicated
union of user roles and service `requiredRoles` (in `Set` insertion order
before sorting). -/
def computeRoles (explicitRoles : Option (List String)) (users : List UserConfig)
    (services : List (String × ServiceConfig)) : List String :=
  match explicitRoles with
  | Option.some rs => sortStrings rs
  | Option.none =>
    sortStrings (dedupFirst
      (users.flatMap (fun u => u.roles) ++
       services.flatMap (fun p => p.2.requiredRoles.getD [])))

/-- `resolveServiceConfig`: applies the inference rules; explicit fields win. -/
def resolveServiceConfig (serviceId : String) (config : ServiceConfig) :
    ResolvedServiceConfig :=
  { serviceId := serviceId
    portalName := config.portalName.getD (inferPortalName serviceId)
    host := config.host.getD (inferHost serviceId)
    authType := config.authType.getD (inferAuthType config.requiredRoles)
    requiredRoles := config.requiredRoles.getD []
    group := config.group
    icon := config.icon
    description := config.description }

/-- `resolveDeploymentConfig`: resolves every service, sorts them by
serviceId, and computes the role list. -/
def resolveDeploymentConfig (stackName : String) (raw : DeploymentConfigFile) :
    ResolvedDeploymentConfig :=
  let users := raw.users.getD []
  let services :=
    sortBy (fun a b => decide (a.serviceId ≤ b.serviceId))
      (raw.services.map (fun p => resolveServiceConfig p.1 p.2))
  { stackName := stackName
    roles := computeRoles raw.roles users raw.services
    users := users
    services := services }

-- ===========================================================================
-- src/infra/pulumi/src/config.ts (stack configuration helpers)
-- ===========================================================================

inductive DescriptorInjectionMethod where
  | json
  | file
deriving DecidableEq, Repr

inductive BuildPlatform where
  | linuxAmd64
  | linuxArm64
  | native'
deriving DecidableEq, Repr

structure AcmeConfig where
  email : String
  staging : Bool
deriving DecidableEq, Repr

/-- `DeploymentConfig`: the per-stack settings threaded into every generator. -/
structure DeploymentConfig where
  deploymentId : String
  environment : String
  baseDomain : String
  useHttps : Bool
  keycloakRealm : String
  acme : Option AcmeConfig := Option.none
  descriptorInjection : DescriptorInjectionMethod := DescriptorInjectionMethod.file
  buildPlatform : BuildPlatform := BuildPlatform.linuxAmd64
  keycloakDevMode : Bool := false
deriving DecidableEq, Repr

/-- `buildUrl`: scheme from the TLS flag, host from the optional subdomain. -/
def buildUrl (config : DeploymentConfig) (subdomain : Option String) : String :=
  let scheme := if config.useHttps then "https" else "http"
  let host :=
    match subdomain with
    | Option.some s => s ++ "." ++ config.baseDomain
    | Option.none => config.baseDomain
  scheme ++ "://" ++ host

-- ===========================================================================
-- src/infra/pulumi/src/types.ts
-- ===========================================================================

/-- Upstream target of a `RouteRequest`. -/
structure RouteUpstream where
  containerName : String
  port : Nat
deriving DecidableEq, Repr

/-- `RouteRequest`: host plus upstream target. -/
structure RouteRequest where
  host : String
  upstream : RouteUpstream
deriving DecidableEq, Repr

/-- `shortName`: `{deploymentId}-gatrr-{serviceId}`. -/
def shortName (deploymentId serviceId : String) : String :=
  deploymentId ++ "-" ++ "gatrr" ++ "-" ++ serviceId

-- ===========================================================================
-- src/infra/pulumi/src/traefik/dynamic-config.ts
-- ===========================================================================

/-- Security/HSTS header settings of a Traefik middleware. -/
structure TraefikHeaders where
  contentTypeNosniff : Option Bool := Option.none
  browserXssFilter : Option Bool := Option.none
  frameDeny : Option Bool := Option.none
  referrerPolicy : Option String := Option.none
  contentSecurityPolicy : Option String := Option.none
  stsSeconds : Option Nat := Option.none
  stsIncludeSubdomains : Option Bool := Option.none
  stsPreload : Option Bool := Option.none
deriving DecidableEq, Repr

structure TraefikRedirectRegex where
  regex : String
  replacement : String
  permanent : Bool
deriving DecidableEq, Repr

structure TraefikRateLimit where
  average : Nat
  burst : Nat
  period : Option String := Option.none
deriving DecidableEq, Repr

structure TraefikInFlightReq where
  amount : Nat
deriving DecidableEq, Repr

/-- `TraefikMiddleware`: exactly one of the optional blocks is set by each
builder. -/
structure TraefikMiddleware where
  redirectRegex : Option TraefikRedirectRegex := Option.none
  headers : Option TraefikHeaders := Option.none
  rateLimit : Option TraefikRateLimit := Option.none
  inFlightReq : Option TraefikInFlightReq := Option.none
deriving DecidableEq, Repr

structure TraefikTls where
  certResolver : Option String := Option.none
deriving DecidableEq, Repr

/-- `TraefikRouter`; an absent `middlewares` key is the empty list. -/
structure TraefikRouter where
  rule : String
  service : String
  entryPoints : List String
  middlewares : List String := []
  tls : Option TraefikTls := Option.none
deriving DecidableEq, Repr

structure TraefikLoadBalancer where
  servers : List String
deriving DecidableEq, Repr

/-- `TraefikService`: a load balancer with server URLs. -/
structure TraefikService where
  loadBalancer : TraefikLoadBalancer
deriving DecidableEq, Repr

/-- `TraefikDynamicConfig.http`: ordered router/service/middleware maps. -/
structure TraefikHttp where
  routers : List (String × TraefikRouter)
  services : List (String × TraefikService)
  middlewares : List (String × TraefikMiddleware)
deriving DecidableEq, Repr

structure TraefikDynamicConfig where
  http : TraefikHttp
deriving DecidableEq, Repr

structure RouteValidationError where
  host : String
  message : String
deriving DecidableEq, Repr

/-- The loop body of `validateRouteRequests`, with the `seenHosts` set as an
accumulating list (membership is all that is consulted). -/
def validateRouteRequestsAux (seen : List String) : List RouteRequest →
    List RouteValidationError
  | [] => []
  | r :: rest =>
    (if seen.contains r.host then
       [{ host := r.host
          message := "Duplicate host: \"" ++ r.host ++ "\" is defined multiple times" }]
     else []) ++
    (if !isValidSlug r.host then
       [{ host := r.host
          message := "Invalid host slug: \"" ++ r.host ++ "\" must be lowercase alphanumeric with hyphens" }]
     else []) ++
    (if RESERVED_HOSTS.contains r.host then
       [{ host := r.host
          message := "Reserved host: \"" ++ r.host ++ "\" is reserved for core infrastructure" }]
     else []) ++
    validateRouteRequestsAux (seen ++ [r.host]) rest

/-- `validateRouteRequests`: duplicate, invalid-slug and reserved hosts. -/
def validateRouteRequests (routes : List RouteRequest) : List RouteValidationError :=
  validateRouteRequestsAux [] routes

/-- `buildSecurityHeadersMiddleware`: strict CSP baseline, HSTS only with
HTTPS. -/
def buildSecurityHeadersMiddleware (config : DeploymentConfig) : TraefikMiddleware :=
  { headers := Option.some
      { contentTypeNosniff := Option.some true
        browserXssFilter := Option.some true
        frameDeny := Option.some true
        referrerPolicy := Option.some "strict-origin-when-cross-origin"
        contentSecurityPolicy := Option.some "default-src \x27self\x27; script-src \x27self\x27; style-src \x27self\x27 \x27unsafe-inline\x27; img-src \x27self\x27 data:; font-src \x27self\x27"
        stsSeconds := if config.useHttps then Option.some 31536000 else Option.none
        stsIncludeSubdomains := if config.useHttps then Option.some true else Option.none
        stsPreload := if config.useHttps then Option.some true else Option.none } }

/-- `buildKeycloakSecurityHeadersMiddleware`: relaxed CSP for the login UI. -/
def buildKeycloakSecurityHeadersMiddleware (config : DeploymentConfig) :
    TraefikMiddleware :=
  { headers := Option.some
      { contentTypeNosniff := Option.some true
        browserXssFilter := Option.some true
        frameDeny := Option.some false
        referrerPolicy := Option.some "strict-origin-when-cross-origin"
        contentSecurityPolicy := Option.some "default-src \x27self\x27; script-src \x27self\x27 \x27unsafe-inline\x27; style-src \x27self\x27 \x27unsafe-inline\x27; img-src \x27self\x27 data:; font-src \x27self\x27; frame-ancestors \x27self\x27"
        stsSeconds := if config.useHttps then Option.some 31536000 else Option.none
        stsIncludeSubdomains := if config.useHttps then Option.some true else Option.none
        stsPreload := if config.useHttps then Option.some true else Option.none } }

def buildRateLimitMiddleware : TraefikMiddleware :=
  { rateLimit := Option.some { average := 100, burst := 50, period := Option.some "1s" } }

def buildInFlightReqMiddleware : TraefikMiddleware :=
  { inFlightReq := Option.some { amount := 100 } }

/-- `shouldApplySecurityHeaders`: production OR HTTPS. -/
def shouldApplySecurityHeaders (config : DeploymentConfig) : Bool :=
  config.environment = "prod" || config.useHttps

/-- `shouldApplyRateLimiting`: production only. -/
def shouldApplyRateLimiting (config : DeploymentConfig) : Bool :=
  config.environment = "prod"

/-- `buildRouter`: middleware chain (rate limit, in-flight, security headers)
and TLS attachment. -/
def buildRouter (config : DeploymentConfig) (rule service : String)
    (additionalMiddlewares : List String := []) : TraefikRouter :=
  let middlewares :=
    additionalMiddlewares ++
    (if shouldApplyRateLimiting config then ["rate-limit", "in-flight-req"] else []) ++
    (if shouldApplySecurityHeaders config then ["security-headers"] else [])
  { rule := rule
    service := service
    entryPoints := if config.useHttps then ["websecure"] else ["web"]
    middlewares := middlewares
    tls := if config.useHttps then Option.some { certResolver := Option.some "letsencrypt" }
           else Option.none }

/-- `buildPortalRoute`: the fixed portal core route. -/
def buildPortalRoute (config : DeploymentConfig) : TraefikRouter × TraefikService :=
  let portalContainer := shortName config.deploymentId "portal"
  (buildRouter config ("Host(`portal." ++ config.baseDomain ++ "`)") "core-portal",
   { loadBalancer := { servers := ["http://" ++ portalContainer ++ ":3000"] } })

/-- `buildKeycloakRoute`: the fixed Keycloak core route with the relaxed
security-header middleware. -/
def buildKeycloakRoute (config : DeploymentConfig) : TraefikRouter × TraefikService :=
  let keycloakContainer := shortName config.deploymentId "keycloak"
  let middlewares :=
    (if shouldApplyRateLimiting config then ["rate-limit", "in-flight-req"] else []) ++
    (if shouldApplySecurityHeaders config then ["keycloak-security-headers"] else [])
  let router : TraefikRouter :=
    { rule := "Host(`keycloak." ++ config.baseDomain ++ "`)"
      service := "core-keycloak"
      entryPoints := if config.useHttps then ["websecure"] else ["web"]
      middlewares := middlewares
      tls := if config.useHttps then Option.some { certResolver := Option.some "letsencrypt" }
             else Option.none }
  (router, { loadBalancer := { servers := ["http://" ++ keycloakContainer ++ ":8080"] } })

/-- `buildBaseDomainRedirect`: router matching the bare base domain and the
`redirect-to-portal` middleware (temporary redirect, `permanent: false`). -/
def buildBaseDomainRedirect (config : DeploymentConfig) :
    TraefikRouter × TraefikMiddleware :=
  let scheme := if config.useHttps then "https" else "http"
  let portalUrl := scheme ++ "://portal." ++ config.baseDomain
  let router : TraefikRouter :=
    { rule := "Host(`" ++ config.baseDomain ++ "`)"
      service := "noop@internal"
      entryPoints := if config.useHttps then ["websecure"] else ["web"]
      middlewares := ["redirect-to-portal"]
      tls := if config.useHttps then Option.some { certResolver := Option.some "letsencrypt" }
             else Option.none }
  (router,
   { redirectRegex := Option.some
       { regex := "^.*$", replacement := portalUrl, permanent := false } })

/-- `buildServiceRoute`: canonical `host-${host}` / `svc-${host}` naming. -/
def buildServiceRoute (config : DeploymentConfig) (route : RouteRequest) :
    (String × TraefikRouter) × (String × TraefikService) :=
  let routerName := "host-" ++ route.host
  let serviceName := "svc-" ++ route.host
  ((routerName,
    buildRouter config ("Host(`" ++ route.host ++ "." ++ config.baseDomain ++ "`)")
      serviceName),
   (serviceName,
    { loadBalancer := { servers :=
        ["http://" ++ route.upstream.containerName ++ ":" ++ toString route.upstream.port] } }))

/-- `sortRoutes`: routes sorted ascending by host. -/
def sortRoutes (routes : List RouteRequest) : List RouteRequest :=
  sortBy (fun a b => decide (a.host ≤ b.host)) routes

/-- `generateTraefikConfig`: validates the route requests, then emits the
base-domain redirect, the two core routes, and one route per request in
host-sorted order. -/
def generateTraefikConfig (config : DeploymentConfig) (routes : List RouteRequest) :
    Except String TraefikDynamicConfig :=
  let validationErrors := validateRouteRequests routes
  if validationErrors.length > 0 then
    Except.error ("Invalid route requests:\n" ++
      jsJoin "\n" (validationErrors.map (fun e => "  - " ++ e.message)))
  else
    let baseDomainRedirect := buildBaseDomainRedirect config
    let portalRoute := buildPortalRoute config
    let keycloakRoute := buildKeycloakRoute config
    let serviceRoutes := (sortRoutes routes).map (buildServiceRoute config)
    Except.ok
      { http :=
          { routers :=
              [("redirect-base", baseDomainRedirect.1),
               ("core-portal", portalRoute.1),
               ("core-keycloak", keycloakRoute.1)] ++
              serviceRoutes.map (fun r => r.1)
            services :=
              [("core-portal", portalRoute.2),
               ("core-keycloak", keycloakRoute.2)] ++
              serviceRoutes.map (fun r => r.2)
            middlewares :=
              (if shouldApplySecurityHeaders config then
                 [("security-headers", buildSecurityHeadersMiddleware config),
                  ("keycloak-security-headers", buildKeycloakSecurityHeadersMiddleware config)]
               else []) ++
              (if shouldApplyRateLimiting config then
                 [("rate-limit", buildRateLimitMiddleware),
                  ("in-flight-req", buildInFlightReqMiddleware)]
               else []) ++
              [("redirect-to-portal", baseDomainRedirect.2)] } }

-- ===========================================================================
-- src/unnamed/part_009 (oauth2-proxy environment generation)
-- ===========================================================================

/-- `buildWhitelistDomains`: `.localhost` for localhost, `.<domain>` else. -/
def buildWhitelistDomains (baseDomain : String) : String :=
  if baseDomain = "localhost" then ".localhost" else "." ++ baseDomain

/-- `OAuth2ProxyEnvInputs`. -/
structure OAuth2ProxyEnvInputs where
  config : DeploymentConfig
  serviceId : String
  host : Option String := Option.none
  keycloakInternalIssuerUrl : String
  keycloakPublicIssuerUrl : String
  clientSecret : String
  cookieSecret : String
  upstreamContainerName : String
  upstreamPort : Nat
  requiredRealmRoles : List String
deriving DecidableEq, Repr

/-- `buildOAuth2ProxyEnvs`: the ordered `KEY=value` environment list. -/
def buildOAuth2ProxyEnvs (inputs : OAuth2ProxyEnvInputs) : List String :=
  let config := inputs.config
  let serviceUrl := buildUrl config (Option.some (inputs.host.getD inputs.serviceId))
  let oidcIssuerUrl :=
    if config.environment = "dev" then inputs.keycloakInternalIssuerUrl
    else inputs.keycloakPublicIssuerUrl
  ["OAUTH2_PROXY_PROVIDER=oidc",
   "OAUTH2_PROXY_OIDC_ISSUER_URL=" ++ oidcIssuerUrl,
   "OAUTH2_PROXY_CLIENT_ID=oauth2-proxy-" ++ inputs.serviceId,
   "OAUTH2_PROXY_CLIENT_SECRET=" ++ inputs.clientSecret,
   (if config.environment = "dev" then
      "OAUTH2_PROXY_INSECURE_OIDC_SKIP_ISSUER_VERIFICATION=true"
    else
      "OAUTH2_PROXY_INSECURE_OIDC_SKIP_ISSUER_VERIFICATION=false"),
   "OAUTH2_PROXY_SCOPE=openid email profile",
   "OAUTH2_PROXY_COOKIE_SECRET=" ++ inputs.cookieSecret,
   "OAUTH2_PROXY_COOKIE_NAME=_oauth2_proxy_" ++ inputs.serviceId,
   "OAUTH2_PROXY_COOKIE_SAMESITE=lax",
   (if config.useHttps then "OAUTH2_PROXY_COOKIE_SECURE=true"
    else "OAUTH2_PROXY_COOKIE_SECURE=false"),
   "OAUTH2_PROXY_UPSTREAMS=http://" ++ inputs.upstreamContainerName ++ ":" ++
     toString inputs.upstreamPort ++ "/",
   "OAUTH2_PROXY_REDIRECT_URL=" ++ serviceUrl ++ "/oauth2/callback",
   "OAUTH2_PROXY_WHITELIST_DOMAINS=" ++ buildWhitelistDomains config.baseDomain,
   "OAUTH2_PROXY_HTTP_ADDRESS=0.0.0.0:4180",
   "OAUTH2_PROXY_EMAIL_DOMAINS=*",
   "OAUTH2_PROXY_SKIP_PROVIDER_BUTTON=true",
   "OAUTH2_PROXY_PASS_ACCESS_TOKEN=true",
   "OAUTH2_PROXY_PASS_AUTHORIZATION_HEADER=true",
   "OAUTH2_PROXY_SET_XAUTHREQUEST=true",
   "OAUTH2_PROXY_SILENCE_PING_LOGGING=true",
   "OAUTH2_PROXY_OIDC_GROUPS_CLAIM=groups",
   "OAUTH2_PROXY_ALLOWED_GROUPS=" ++ jsJoin "," inputs.requiredRealmRoles]

/-- `getEnvValue`: value of the first entry starting with `key=` (JS
`startsWith`/`slice`, modelled on the code-point sequence). -/
def getEnvValue (envs : List String) (key : String) : Option String :=
  let pre := key ++ "="
  (envs.find? (fun e => pre.data.isPrefixOf e.data)).map
    (fun e => String.mk (e.data.drop pre.data.length))

-- ===========================================================================
-- src/infra/pulumi/src/keycloak (realm-import generation)
-- ===========================================================================

/-- `KeycloakClientRequest`: what a protected service asks of Keycloak. -/
structure KeycloakClientRequest where
  clientId : String
  serviceId : String
  redirectUris : List String
  webOrigins : List String
deriving DecidableEq, Repr

/-- `OAuth2ProxyAuthzPolicy`. -/
structure OAuth2ProxyAuthzPolicy where
  requiredRealmRoles : List String
deriving DecidableEq, Repr

structure KeycloakProtocolMapper where
  name : String
  protocol : String
  protocolMapper : String
  consentRequired : Bool
  config : List (String × String)
deriving DecidableEq, Repr

structure KeycloakClient where
  clientId : String
  name : String
  enabled : Bool
  clientAuthenticatorType : String
  secret : String
  redirectUris : List String
  webOrigins : List String
  attributes : List (String × String)
  publicClient : Bool
  protocol : String
  standardFlowEnabled : Bool
  directAccessGrantsEnabled : Bool
  protocolMappers : List KeycloakProtocolMapper
deriving DecidableEq, Repr

structure RealmRole where
  name : String
  description : String
deriving DecidableEq, Repr

structure KeycloakCredential where
  type' : String
  value : String
  temporary : Bool
deriving DecidableEq, Repr

structure KeycloakUser where
  username : String
  enabled : Bool
  emailVerified : Bool
  email : String
  firstName : String
  lastName : String
  credentials : List KeycloakCredential
  realmRoles : List String
deriving DecidableEq, Repr

structure RealmImport where
  realm : String
  enabled : Bool
  sslRequired : String
  registrationAllowed : Bool
  loginWithEmailAllowed : Bool
  duplicateEmailsAllowed : Bool
  resetPasswordAllowed : Bool
  editUsernameAllowed : Bool
  bruteForceProtected : Bool
  realmRoles : List RealmRole
  clients : List KeycloakClient
  users : List KeycloakUser
deriving DecidableEq, Repr

/-- `RealmImportInputs`; the two secret records are string-keyed maps. -/
structure RealmImportInputs where
  config : DeploymentConfig
  portalClientSecret : String
  oauth2ProxyClientSecrets : List (String × String)
  clientRequests : List KeycloakClientRequest
  authzPolicies : List (String × OAuth2ProxyAuthzPolicy)
  deploymentConfig : ResolvedDeploymentConfig
  userPasswords : List (String × String)
deriving DecidableEq, Repr

/-- `buildPortalClient`: the portal OIDC client with audience and realm-role
mappers. -/
def buildPortalClient (config : DeploymentConfig) (portalClientSecret : String) :
    KeycloakClient :=
  let portalUrl := buildUrl config (Option.some "portal")
  { clientId := "portal"
    name := "Portal"
    enabled := true
    clientAuthenticatorType := "client-secret"
    secret := portalClientSecret
    redirectUris := [portalUrl ++ "/auth/callback"]
    webOrigins := [portalUrl]
    attributes := [("post.logout.redirect.uris",
      portalUrl ++ "/auth/logout/complete##" ++ portalUrl ++ "/auth/logout/")]
    publicClient := false
    protocol := "openid-connect"
    standardFlowEnabled := true
    directAccessGrantsEnabled := false
    protocolMappers :=
      [{ name := "portal-audience"
         protocol := "openid-connect"
         protocolMapper := "oidc-audience-mapper"
         consentRequired := false
         config := [("included.client.audience", "portal"),
                    ("id.token.claim", "false"),
                    ("access.token.claim", "true")] },
       { name := "realm-roles"
         protocol := "openid-connect"
         protocolMapper := "oidc-usermodel-realm-role-mapper"
         consentRequired := false
         config := [("multivalued", "true"),
                    ("claim.name", "realm_access.roles"),
                    ("jsonType.label", "String"),
                    ("id.token.claim", "true"),
                    ("access.token.claim", "true"),
                    ("userinfo.token.claim", "true")] }] }

/-- `buildOAuth2ProxyClient`: one client per protected service, with the
realm-role to `groups`-claim mapper. -/
def buildOAuth2ProxyClient (clientRequest : KeycloakClientRequest)
    (clientSecret : String) : KeycloakClient :=
  { clientId := clientRequest.clientId
    name := "OAuth2 Proxy - " ++ clientRequest.serviceId
    enabled := true
    clientAuthenticatorType := "client-secret"
    secret := clientSecret
    redirectUris := clientRequest.redirectUris
    webOrigins := clientRequest.webOrigins
    attributes := [("post.logout.redirect.uris", jsJoin "##" clientRequest.webOrigins)]
    publicClient := false
    protocol := "openid-connect"
    standardFlowEnabled := true
    directAccessGrantsEnabled := false
    protocolMappers :=
      [{ name := "realm-roles-mapper"
         protocol := "openid-connect"
         protocolMapper := "oidc-usermodel-realm-role-mapper"
         consentRequired := false
         config := [("multivalued", "true"),
                    ("claim.name", "groups"),
                    ("jsonType.label", "String"),
                    ("id.token.claim", "true"),
                    ("access.token.claim", "true"),
                    ("userinfo.token.claim", "true")] }] }

/-- `getRoleDescription`. -/
def getRoleDescription (role : String) : String :=
  if role = "admin" then "Administrator role - full access to all protected services"
  else if role = "dev" then "Developer role - access to standard protected services"
  else "Access role: " ++ role

/-- `buildRealmRoles`: one realm role per configured role. -/
def buildRealmRoles (deploymentConfig : ResolvedDeploymentConfig) : List RealmRole :=
  deploymentConfig.roles.map (fun role =>
    { name := role, description := getRoleDescription role })

/-- `buildKeycloakUser`: realm user with default-role membership first. -/
def buildKeycloakUser (user : UserConfig) (password : String) (realmName : String) :
    KeycloakUser :=
  let defaultRoles := ["default-roles-" ++ realmName]
  { username := user.username
    enabled := true
    emailVerified := true
    email := user.email
    firstName := user.firstName.getD user.username
    lastName := user.lastName.getD "User"
    credentials := [{ type' := "password", value := password, temporary := false }]
    realmRoles := defaultRoles ++ user.roles }

/-- The error thrown by `buildRealmImport` for a user without a password. -/
def missingPasswordMessage (username : String) : String :=
  "Missing password for user \"" ++ username ++
    "\". This should have been caught by validation."

/-- `buildRealmImport`: portal client, per-service clients (a request whose
secret is absent or empty is skipped), realm roles, and users (a user whose
password is absent or empty raises). -/
def buildRealmImport (inputs : RealmImportInputs) : Except String RealmImport := do
  let config := inputs.config
  let sortedClientRequests :=
    sortBy (fun a b => decide (a.serviceId ≤ b.serviceId)) inputs.clientRequests
  let clients :=
    buildPortalClient config inputs.portalClientSecret ::
    sortedClientRequests.filterMap (fun clientRequest =>
      match recordGet inputs.oauth2ProxyClientSecrets clientRequest.serviceId with
      | Option.some secret =>
        if secret ≠ "" then Option.some (buildOAuth2ProxyClient clientRequest secret)
        else Option.none
      | Option.none => Option.none)
  let realmRoles := buildRealmRoles inputs.deploymentConfig
  let users ← inputs.deploymentConfig.users.mapM (fun user =>
    match recordGet inputs.userPasswords user.username with
    | Option.some password =>
      if password ≠ "" then
        Except.ok (buildKeycloakUser user password config.keycloakRealm)
      else Except.error (missingPasswordMessage user.username)
    | Option.none => Except.error (missingPasswordMessage user.username))
  Except.ok
    { realm := config.keycloakRealm
      enabled := true
      sslRequired := if config.useHttps then "external" else "none"
      registrationAllowed := false
      loginWithEmailAllowed := true
      duplicateEmailsAllowed := false
      resetPasswordAllowed := true
      editUsernameAllowed := false
      bruteForceProtected := true
      realmRoles := realmRoles
      clients := clients
      users := users }

-- ===========================================================================
-- src/unnamed/part_004 (portal descriptor generation)
-- ===========================================================================

/-- Primary weight of one character under the descriptor sort collator
(`Intl` en-US, sensitivity "base"). Model: ASCII case folding, with U+FFFF
given the maximal weight — the Unicode Collation Algorithm assigns U+FFFF
the largest primary weight, which is exactly why the source uses it as the
"sort last" sentinel for ungrouped services. -/
def collCharWeight (c : Char) : Nat :=
  if c.toNat = 0xFFFF then 0x110000 else c.toLower.toNat

def digitVal (c : Char) : Nat := c.toNat - 0x30

/-- Collation key of a character sequence under the `numeric: true` option:
maximal digit runs become a numeric token (weight pair `(0x30, value)`),
other characters a character token (weight pair `(w, 0)`). The running
`Option Nat` is the value of the digit run being read. -/
def collKeyGo : Option Nat → List Char → List Nat
  | Option.none, [] => []
  | Option.some n, [] => [0x30, n]
  | Option.none, c :: rest =>
    if isDigitChar c then collKeyGo (Option.some (digitVal c)) rest
    else collCharWeight c :: 0 :: collKeyGo Option.none rest
  | Option.some n, c :: rest =>
    if isDigitChar c then collKeyGo (Option.some (n * 10 + digitVal c)) rest
    else 0x30 :: n :: collCharWeight c :: 0 :: collKeyGo Option.none rest

def collKey (s : String) : List Nat := collKeyGo Option.none s.data

/-- Lexicographic comparison of weight sequences. -/
def lexNat : List Nat → List Nat → Ordering
  | [], [] => Ordering.eq
  | [], _ :: _ => Ordering.lt
  | _ :: _, [] => Ordering.gt
  | a :: as', b :: bs' =>
    match compare a b with
    | Ordering.eq => lexNat as' bs'
    | o => o

/-- `compareStrings` of the descriptor module:
`a.localeCompare(b, "en-US", {sensitivity: "base", numeric: true})`,
modelled through the collation keys above. -/
def compareStrings (a b : String) : Ordering :=
  lexNat (collKey a) (collKey b)

/-- `Service` of the portal descriptor (`descriptor.gen`); the source field
`protected` is a Lean keyword and is embedded as `protectedFlag`. -/
structure Service where
  id : String
  name : String
  url : String
  protectedFlag : Bool
  authType : AuthType
  group : Option String := Option.none
  icon : Option String := Option.none
  description : Option String := Option.none
  requiredRealmRoles : Option (List String) := Option.none
deriving DecidableEq, Repr

/-- The comparator of `sortPortalServices`: group (with the U+FFFF sentinel
for no group, compared only when the raw keys differ as strings), then name. -/
def portalServiceOrder (a b : Service) : Ordering :=
  let groupA := a.group.getD "\uFFFF"
  let groupB := b.group.getD "\uFFFF"
  if groupA ≠ groupB then compareStrings groupA groupB
  else compareStrings a.name b.name

/-- `sortPortalServices`: stable sort by group then name. -/
def sortPortalServices (services : List Service) : List Service :=
  sortBy (fun a b => decide (portalServiceOrder a b ≠ Ordering.gt)) services

structure PortalConfig where
  publicUrl : String
deriving DecidableEq, Repr

structure KeycloakConfig where
  publicUrl : String
  issuerUrl : String
  realm : String
deriving DecidableEq, Repr

structure DeploymentInfo where
  commitSha : Option String := Option.none
  commitAt : Option String := Option.none
  deployedAt : Option String := Option.none
deriving DecidableEq, Repr

structure GenerateDescriptorOptions where
  deployment : Option DeploymentInfo := Option.none
deriving DecidableEq, Repr

structure PortalDescriptor where
  version : String
  deploymentId : String
  environment : String
  baseDomain : String
  deployment : Option DeploymentInfo := Option.none
  portal : PortalConfig
  keycloak : KeycloakConfig
  services : List Service
deriving DecidableEq, Repr

/-- JS string truthiness filter: an absent or empty string is dropped. -/
def truthyString (s : Option String) : Option String :=
  match s with
  | Option.some v => if v = "" then Option.none else Option.some v
  | Option.none => Option.none

/-- Modelled from the spec: `validateDescriptorSchema` checks the descriptor
against `schema/portal-descriptor.schema.json`, a file that is not among the
sources. Per the spec it is the single enforcement point for
`protected == (authType != "none")` and for `requiredRealmRoles` being
present and non-empty exactly for protected auth types. -/
def validateDescriptorSchema (descriptor : PortalDescriptor) : Bool :=
  descriptor.services.all (fun s =>
    (s.protectedFlag = decide (s.authType ≠ AuthType.none)) &&
    (match s.authType, s.requiredRealmRoles with
     | AuthType.none, Option.none => true
     | AuthType.none, Option.some _ => false
     | _, Option.some (_ :: _) => true
     | _, _ => false))

/-- `generateDescriptor`: builds the descriptor with services in sorted
order, then validates it against the schema and raises on violation. -/
def generateDescriptor (config : DeploymentConfig) (services : List Service)
    (options : Option GenerateDescriptorOptions) : Except String PortalDescriptor :=
  let portalUrl := buildUrl config (Option.some "portal")
  let keycloakUrl := buildUrl config (Option.some "keycloak")
  let sortedServices := sortPortalServices services
  let deployment : Option DeploymentInfo :=
    match options.bind (fun o => o.deployment) with
    | Option.some d =>
      let commitSha := truthyString d.commitSha
      let commitAt := truthyString d.commitAt
      let deployedAt := truthyString d.deployedAt
      if commitSha.isSome || commitAt.isSome || deployedAt.isSome then
        Option.some { commitSha := commitSha, commitAt := commitAt, deployedAt := deployedAt }
      else Option.none
    | Option.none => Option.none
  let descriptor : PortalDescriptor :=
    { version := "1"
      deploymentId := config.deploymentId
      environment := config.environment
      baseDomain := config.baseDomain
      deployment := deployment
      portal := { publicUrl := portalUrl }
      keycloak := { publicUrl := keycloakUrl
                    issuerUrl := keycloakUrl ++ "/realms/" ++ config.keycloakRealm
                    realm := config.keycloakRealm }
      services := sortedServices }
  if validateDescriptorSchema descriptor then Except.ok descriptor
  else Except.error "Descriptor schema validation failed"

/-- A concrete production configuration used to exercise the traefik
generator at a concrete input. -/
def cfgProdW : DeploymentConfig :=
  { deploymentId := "main", environment := "prod", baseDomain := "example.com",
    useHttps := true, keycloakRealm := "prod" }

/-- The traefik configuration `generateTraefikConfig cfgProdW []` emits. -/
def outProdW : TraefikDynamicConfig :=
  { http :=
      { routers :=
          [("redirect-base", (buildBaseDomainRedirect cfgProdW).1),
           ("core-portal", (buildPortalRoute cfgProdW).1),
           ("core-keycloak", (buildKeycloakRoute cfgProdW).1)]
        services :=
          [("core-portal", (buildPortalRoute cfgProdW).2),
           ("core-keycloak", (buildKeycloakRoute cfgProdW).2)]
        middlewares :=
          [("security-headers", buildSecurityHeadersMiddleware cfgProdW),
           ("keycloak-security-headers",
             buildKeycloakSecurityHeadersMiddleware cfgProdW),
           ("rate-limit", buildRateLimitMiddleware),
           ("in-flight-req", buildInFlightReqMiddleware),
           ("redirect-to-portal", (buildBaseDomainRedirect cfgProdW).2)] } }

-- ===========================================================================
-- Helper lemmas
-- ===========================================================================

theorem insertBy_perm {α : Type} (le : α → α → Bool) (x : α) (l : List α) :
    (insertBy le x l).Perm (x :: l) := by
  induction l with
  | nil => exact List.Perm.refl _
  | cons y ys ih =>
    unfold insertBy
    by_cases h : le x y = true
    · rw [if_pos h]
    · rw [if_neg h]
      exact (ih.cons y).trans (List.Perm.swap x y ys)

theorem sortBy_perm {α : Type} (le : α → α → Bool) (l : List α) :
    (sortBy le l).Perm l := by
  induction l with
  | nil => exact List.Perm.refl _
  | cons x xs ih =>
    have hs : sortBy le (x :: xs) = insertBy le x (sortBy le xs) := rfl
    rw [hs]
    exact (insertBy_perm le x (sortBy le xs)).trans (ih.cons x)

theorem chain'_insertBy {α : Type} (le : α → α → Bool)
    (total : ∀ a b, le a b = true ∨ le b a = true) (x : α) (l : List α)
    (h : l.Chain' (fun a b => le a b = true)) :
    (insertBy le x l).Chain' (fun a b => le a b = true) := by
  induction l with
  | nil => simp [insertBy]
  | cons y ys ih =>
    unfold insertBy
    by_cases hxy : le x y = true
    · rw [if_pos hxy]
      exact List.Chain'.cons hxy h
    · rw [if_neg hxy]
      have hyx : le y x = true := (total x y).resolve_left hxy
      have hys : ys.Chain' (fun a b => le a b = true) := h.tail
      refine List.chain'_cons'.mpr ⟨?_, ih hys⟩
      intro b hb
      cases ys with
      | nil =>
        simp only [insertBy, List.head?_cons, Option.mem_def, Option.some.injEq] at hb
        subst hb; exact hyx
      | cons z zs =>
        unfold insertBy at hb
        by_cases hxz : le x z = true
        · rw [if_pos hxz] at hb
          simp only [List.head?_cons, Option.mem_def, Option.some.injEq] at hb
          subst hb; exact hyx
        · rw [if_neg hxz] at hb
          simp only [List.head?_cons, Option.mem_def, Option.some.injEq] at hb
          subst hb
          exact (List.chain'_cons.mp h).1

theorem sortBy_chain' {α : Type} (le : α → α → Bool)
    (total : ∀ a b, le a b = true ∨ le b a = true) (l : List α) :
    (sortBy le l).Chain' (fun a b => le a b = true) := by
  induction l with
  | nil => simp [sortBy]
  | cons x xs ih => exact chain'_insertBy le total x (sortBy le xs) ih

theorem infix_jsJoin (sep : String) (s : String) :
    ∀ l : List String, s ∈ l → s.data <:+: (jsJoin sep l).data := by
  intro l
  induction l with
  | nil => intro h; cases h
  | cons x xs ih =>
    intro h
    cases xs with
    | nil =>
      have hx : s = x := by simpa using h
      subst hx
      exact List.infix_refl _
    | cons y ys =>
      have hj : jsJoin sep (x :: y :: ys) = x ++ sep ++ jsJoin sep (y :: ys) := rfl
      rw [hj, String.data_append, String.data_append]
      rcases List.mem_cons.mp h with h1 | h1
      · subst h1
        exact ((List.prefix_append s.data sep.data).trans
          (List.prefix_append (s.data ++ sep.data) (jsJoin sep (y :: ys)).data)).isInfix
      · exact (ih h1).trans (List.suffix_append _ _).isInfix

theorem option_toList_eq_nil {α : Type} (o : Option α) :
    o.toList = [] ↔ o = Option.none := by
  cases o <;> simp [Option.toList]

theorem mem_dedupFirst (m : List String) (a : String) :
    a ∈ dedupFirst m ↔ a ∈ m := by
  have H : ∀ (n : Nat) (m : List String), m.length = n →
      ∀ a, (a ∈ dedupFirst m ↔ a ∈ m) := by
    intro n
    induction n using Nat.strong_induction_on with
    | _ n ih =>
      intro m hn a
      cases m with
      | nil => simp [dedupFirst]
      | cons h t =>
        have hlt : (t.filter (fun x => x ≠ h)).length < n := by
          subst hn
          simp only [List.length_cons]
          exact Nat.lt_succ_of_le (List.length_filter_le _ _)
        have key := ih _ hlt (t.filter (fun x => x ≠ h)) rfl a
        simp only [dedupFirst, List.mem_cons, key, List.mem_filter]
        by_cases ha : a = h
        · subst ha; simp
        · simp [ha]
  exact H m.length m rfl a

theorem dedupFirst_append_singleton (m : List String) (h : String) :
    dedupFirst (m ++ [h]) =
      if h ∈ m then dedupFirst m else dedupFirst m ++ [h] := by
  have H : ∀ (n : Nat) (m : List String), m.length = n → ∀ h : String,
      dedupFirst (m ++ [h]) =
        if h ∈ m then dedupFirst m else dedupFirst m ++ [h] := by
    intro n
    induction n using Nat.strong_induction_on with
    | _ n ih =>
      intro m hn h
      cases m with
      | nil => simp [dedupFirst]
      | cons x xs =>
        have hlt : (xs.filter (fun a => a ≠ x)).length < n := by
          subst hn
          simp only [List.length_cons]
          exact Nat.lt_succ_of_le (List.length_filter_le _ _)
        have key := ih _ hlt (xs.filter (fun a => a ≠ x)) rfl h
        by_cases hx : h = x
        · subst hx
          simp only [List.cons_append, dedupFirst, List.filter_append]
          simp [List.mem_cons]
        · simp only [List.cons_append, dedupFirst, List.filter_append]
          have hfil : [h].filter (fun a => a ≠ x) = [h] := by simp [hx]
          rw [hfil, key]
          by_cases hmem : h ∈ xs
          · rw [if_pos (List.mem_filter.mpr ⟨hmem, by simp [hx]⟩),
              if_pos (List.mem_cons.mpr (Or.inr hmem))]
          · rw [if_neg (fun hc => hmem (List.mem_filter.mp hc).1),
              if_neg (by simp [hx, hmem])]
  exact H m.length m rfl h

theorem filterMap_ite {α β : Type} (p : α → Bool) (g : α → β) (l : List α) :
    (l.filterMap (fun a => if p a then Option.some (g a) else Option.none)) =
      (l.filter p).map g := by
  induction l with
  | nil => rfl
  | cons x xs ih =>
    by_cases hx : p x = true
    · simp [hx, ih]
    · simp [hx, ih]

theorem hostGroups_eq (services : List ResolvedServiceConfig) :
    hostGroups services =
      (dedupFirst (services.map (fun s => s.host))).map
        (fun h => (h, (services.filter (fun s => s.host = h)).map
          (fun s => s.serviceId))) := by
  induction services using List.reverseRecOn with
  | nil => simp [hostGroups, dedupFirst]
  | append_singleton l a ih =>
    have hL : hostGroups (l ++ [a]) = addHost (hostGroups l) a := by
      unfold hostGroups
      rw [List.foldl_append]
      rfl
    have hmapapp : (l ++ [a]).map (fun s => s.host) =
        l.map (fun s => s.host) ++ [a.host] := by simp
    rw [hL, ih, hmapapp, dedupFirst_append_singleton]
    by_cases hmem : a.host ∈ l.map (fun s => s.host)
    · rw [if_pos hmem]
      unfold addHost
      have hany : ((dedupFirst (l.map (fun s => s.host))).map
          (fun h => (h, (l.filter (fun s => s.host = h)).map
            (fun s => s.serviceId)))).any (fun p => p.1 = a.host) = true := by
        rw [List.any_eq_true]
        refine ⟨(a.host, (l.filter (fun s => s.host = a.host)).map
          (fun s => s.serviceId)), ?_, by simp⟩
        exact List.mem_map.mpr ⟨a.host, (mem_dedupFirst _ _).mpr hmem, rfl⟩
      rw [if_pos hany, List.map_map]
      apply List.map_congr_left
      intro h _
      simp only [Function.comp_apply]
      by_cases hh : h = a.host
      · rw [if_pos hh]
        have hfa : (l ++ [a]).filter (fun s => s.host = h) =
            l.filter (fun s => s.host = h) ++ [a] := by
          rw [List.filter_append]
          congr 1
          simp [hh]
        rw [hfa]
        simp
      · rw [if_neg hh]
        have hne : ¬ (a.host = h) := fun hc => hh hc.symm
        have hfa : (l ++ [a]).filter (fun s => s.host = h) =
            l.filter (fun s => s.host = h) := by
          rw [List.filter_append]
          have hz : [a].filter (fun s => s.host = h) = [] := by simp [hne]
          rw [hz, List.append_nil]
        rw [hfa]
    · rw [if_neg hmem]
      unfold addHost
      have hany : ¬ (((dedupFirst (l.map (fun s => s.host))).map
          (fun h => (h, (l.filter (fun s => s.host = h)).map
            (fun s => s.serviceId)))).any (fun p => p.1 = a.host) = true) := by
        rw [List.any_eq_true]
        rintro ⟨p, hmem', hcond⟩
        rcases List.mem_map.mp hmem' with ⟨h, hh, rfl⟩
        simp only [decide_eq_true_eq] at hcond
        exact hmem (hcond ▸ (mem_dedupFirst _ _).mp hh)
      rw [if_neg hany, List.map_append]
      congr 1
      · apply List.map_congr_left
        intro h hmem'
        have hne : a.host ≠ h := by
          intro hc
          exact hmem (hc ▸ (mem_dedupFirst _ _).mp hmem')
        simp only [List.filter_append]
        have : [a].filter (fun s => s.host = h) = [] := by simp [hne]
        rw [this]
        simp
      · have hlf : l.filter (fun s => s.host = a.host) = [] := by
          rw [List.filter_eq_nil_iff]
          intro s hs
          simp only [decide_eq_true_eq]
          intro hc
          exact hmem (List.mem_map.mpr ⟨s, hs, hc⟩)
        simp [List.filter_append, hlf]

theorem validateRouteRequestsAux_eq_nil_of : ∀ (routes : List RouteRequest)
    (seen : List String),
    (routes.map (fun r => r.host)).Nodup →
    (∀ r ∈ routes, r.host ∉ seen ∧ isValidSlug r.host = true ∧
      r.host ∉ RESERVED_HOSTS) →
    validateRouteRequestsAux seen routes = [] := by
  intro routes
  induction routes with
  | nil => intro seen _ _; rfl
  | cons r rest ih =>
    intro seen hnodup hall
    obtain ⟨hr, hslug, hres⟩ := hall r (List.mem_cons_self r rest)
    have hhead : r.host ∉ rest.map (fun r => r.host) := (List.nodup_cons.mp hnodup).1
    unfold validateRouteRequestsAux
    rw [if_neg (by simpa using hr), if_neg (by simp [hslug]),
        if_neg (by simpa using hres)]
    simp only [List.nil_append]
    apply ih
    · exact (List.nodup_cons.mp hnodup).2
    · intro r' hr'
      obtain ⟨h1, h2, h3⟩ := hall r' (List.mem_cons_of_mem r hr')
      refine ⟨?_, h2, h3⟩
      intro hc
      rcases List.mem_append.mp hc with hc | hc
      · exact h1 hc
      · have : r'.host = r.host := by simpa using hc
        exact hhead (this ▸ List.mem_map.mpr ⟨r', hr', rfl⟩)

theorem lexNat_self : ∀ a : List Nat, lexNat a a = Ordering.eq := by
  intro a
  induction a with
  | nil => rfl
  | cons x xs ih =>
    have hx : compare x x = Ordering.eq := by
      rw [Nat.compare_eq_eq]
    simp [lexNat, hx, ih]

theorem lexNat_swap : ∀ a b : List Nat, lexNat a b = (lexNat b a).swap := by
  intro a
  induction a with
  | nil => intro b; cases b <;> rfl
  | cons x xs ih =>
    intro b
    cases b with
    | nil => rfl
    | cons y ys =>
      have hs : compare y x = (compare x y).swap := (Nat.compare_swap x y).symm
      rcases hc : compare x y with _ | _ | _ <;>
        simp [lexNat, hc, hs, Ordering.swap, ih ys]

theorem lexNat_trans : ∀ a b c : List Nat, lexNat a b ≠ Ordering.gt →
    lexNat b c ≠ Ordering.gt → lexNat a c ≠ Ordering.gt := by
  intro a
  induction a with
  | nil =>
    intro b c _ _
    cases c <;> simp [lexNat]
  | cons x xs ih =>
    intro b c h1 h2
    cases b with
    | nil => exact absurd rfl h1
    | cons y ys =>
      cases c with
      | nil => exact absurd rfl h2
      | cons z zs =>
        simp only [lexNat] at h1 h2 ⊢
        rcases hxy : compare x y with _ | _ | _ <;> rw [hxy] at h1 <;>
          rcases hyz : compare y z with _ | _ | _ <;> rw [hyz] at h2
        all_goals (try exact absurd rfl h1)
        all_goals (try exact absurd rfl h2)
        · have hlt : x < y := Nat.compare_eq_lt.mp hxy
          have hlt2 : y < z := Nat.compare_eq_lt.mp hyz
          rw [Nat.compare_eq_lt.mpr (lt_trans hlt hlt2)]
          simp
        · have hlt : x < y := Nat.compare_eq_lt.mp hxy
          have heq : y = z := Nat.compare_eq_eq.mp hyz
          rw [Nat.compare_eq_lt.mpr (heq ▸ hlt)]
          simp
        · have heq : x = y := Nat.compare_eq_eq.mp hxy
          have hlt : y < z := Nat.compare_eq_lt.mp hyz
          rw [Nat.compare_eq_lt.mpr (heq ▸ hlt)]
          simp
        · have heq : x = y := Nat.compare_eq_eq.mp hxy
          have heq2 : y = z := Nat.compare_eq_eq.mp hyz
          rw [Nat.compare_eq_eq.mpr (heq.trans heq2)]
          exact ih ys zs h1 h2

theorem compareStrings_self (a : String) : compareStrings a a = Ordering.eq :=
  lexNat_self _

theorem compareStrings_swap (a b : String) :
    compareStrings a b = (compareStrings b a).swap :=
  lexNat_swap _ _

theorem portalServiceOrder_swap (a b : Service) :
    portalServiceOrder a b = (portalServiceOrder b a).swap := by
  unfold portalServiceOrder
  by_cases h : a.group.getD "\uFFFF" = b.group.getD "\uFFFF"
  · rw [h]
    simp [compareStrings_swap a.name b.name]
  · rw [if_pos h, if_pos (fun hc => h hc.symm)]
    exact compareStrings_swap _ _

theorem validateDeploymentConfig_eq (config : ResolvedDeploymentConfig)
    (catalog : List String) :
    validateDeploymentConfig config catalog =
      if collectedErrors config catalog = [] then ValidationResult.valid config
      else ValidationResult.invalid (collectedErrors config catalog) := by
  by_cases h : collectedErrors config catalog = []
  · rw [if_pos h]
    unfold validateDeploymentConfig
    rw [if_pos (by simp [h])]
  · rw [if_neg h]
    unfold validateDeploymentConfig
    rw [if_neg (fun hc => h (List.length_eq_zero.mp hc))]

theorem validateDeploymentConfig_valid_iff (config : ResolvedDeploymentConfig)
    (catalog : List String) :
    validateDeploymentConfig config catalog = ValidationResult.valid config ↔
      collectedErrors config catalog = [] := by
  rw [validateDeploymentConfig_eq]
  by_cases h : collectedErrors config catalog = []
  · simp [h]
  · simp [h]

theorem validateDeploymentConfig_invalid (config : ResolvedDeploymentConfig)
    (catalog : List String) (errs : List ValidationError)
    (h : validateDeploymentConfig config catalog = ValidationResult.invalid errs) :
    errs = collectedErrors config catalog := by
  rw [validateDeploymentConfig_eq] at h
  by_cases hc : collectedErrors config catalog = []
  · rw [if_pos hc] at h; cases h
  · rw [if_neg hc] at h
    cases h
    rfl

theorem serviceErrors_eq_nil_iff (config : ResolvedDeploymentConfig)
    (catalog : List String) (s : ResolvedServiceConfig) :
    serviceErrors config catalog s = [] ↔
      validateServiceIdFormat s.serviceId = Option.none ∧
      validateServiceExists s.serviceId catalog = Option.none ∧
      validateHostFormat s.host s.serviceId = Option.none ∧
      validateNotReservedHost s.host s.serviceId = Option.none ∧
      validateAuthTypeRolesConsistency s.authType s.requiredRoles s.serviceId =
        Option.none ∧
      (config.roles.length > 0 ∧ s.requiredRoles.length > 0 →
        validateRolesInAllowList s.requiredRoles config.roles
          ("service \"" ++ s.serviceId ++ "\"")
          ("services." ++ s.serviceId ++ ".requiredRoles") = []) := by
  unfold serviceErrors
  simp only [List.append_eq_nil, option_toList_eq_nil]
  constructor
  · rintro ⟨⟨⟨⟨⟨a, b⟩, c⟩, d⟩, e⟩, f⟩
    refine ⟨a, b, c, d, e, ?_⟩
    intro hc
    rwa [if_pos hc] at f
  · rintro ⟨a, b, c, d, e, f⟩
    refine ⟨⟨⟨⟨⟨a, b⟩, c⟩, d⟩, e⟩, ?_⟩
    by_cases hc : config.roles.length > 0 ∧ s.requiredRoles.length > 0
    · rw [if_pos hc]; exact f hc
    · rw [if_neg hc]

theorem userErrors_eq_nil_iff (config : ResolvedDeploymentConfig) (i : Nat)
    (u : UserConfig) :
    userErrors config i u = [] ↔
      validateUserConfig u i = [] ∧
      (config.roles.length > 0 →
        validateRolesInAllowList u.roles config.roles
          ("user \"" ++ u.username ++ "\"")
          ("users[" ++ toString i ++ "].roles") = []) := by
  unfold userErrors
  simp only [List.append_eq_nil]
  constructor
  · rintro ⟨a, b⟩
    refine ⟨a, ?_⟩
    intro hc
    rwa [if_pos hc] at b
  · rintro ⟨a, b⟩
    refine ⟨a, ?_⟩
    by_cases hc : config.roles.length > 0
    · rw [if_pos hc]; exact b hc
    · rw [if_neg hc]

theorem collectedErrors_eq_nil_iff (config : ResolvedDeploymentConfig)
    (catalog : List String) :
    collectedErrors config catalog = [] ↔
      ((∀ p ∈ config.roles.enum, validateRoleFormat p.2 p.1 = Option.none) ∧
       validateUsersLocalOnly config.users config.stackName = Option.none ∧
       (∀ p ∈ config.users.enum, userErrors config p.1 p.2 = []) ∧
       (∀ s ∈ config.services, serviceErrors config catalog s = []) ∧
       (∀ p ∈ hostGroups config.services, p.2.length ≤ 1)) := by
  unfold collectedErrors
  simp only [List.append_eq_nil, List.filterMap_eq_nil_iff, option_toList_eq_nil,
    List.flatMap_eq_nil_iff]
  constructor
  · rintro ⟨⟨⟨⟨h1, h2⟩, h3⟩, h4⟩, h5⟩
    refine ⟨h1, h2, h3, h4, ?_⟩
    intro p hp
    have hcond := h5 p hp
    by_contra hgt
    rw [if_pos (by omega)] at hcond
    cases hcond
  · rintro ⟨h1, h2, h3, h4, h5⟩
    refine ⟨⟨⟨⟨h1, h2⟩, h3⟩, h4⟩, ?_⟩
    intro p hp
    rw [if_neg (by have := h5 p hp; omega)]

theorem authConsistency_none_iff (t : AuthType) (roles : List String) (sid : String) :
    validateAuthTypeRolesConsistency t roles sid = Option.none ↔
      (t = AuthType.none ↔ roles = []) := by
  cases t <;> rcases roles with _ | ⟨r, rs⟩ <;>
    simp [validateAuthTypeRolesConsistency]

-- ===========================================================================
-- Claim theorems
-- ===========================================================================

/-- C1: for every resolved deployment configuration accepted by
`validateDeploymentConfig` (result `valid: true`), every service satisfies:
`authType` is `"none"` if and only if its `requiredRoles` list is empty
(`"oauth2-proxy"` and `"portal"` being the non-none auth types). -/
theorem valid_config_authType_none_iff_roles_empty
    (config : ResolvedDeploymentConfig) (catalog : List String)
    (c : ResolvedDeploymentConfig)
    (h : validateDeploymentConfig config catalog = ValidationResult.valid c) :
    ∀ s ∈ c.services, (s.authType = AuthType.none ↔ s.requiredRoles = []) := by
  have hc : c = config := by
    rw [validateDeploymentConfig_eq] at h
    by_cases hce : collectedErrors config catalog = []
    · rw [if_pos hce] at h; cases h; rfl
    · rw [if_neg hce] at h; cases h
  subst hc
  have hnil : collectedErrors c catalog = [] := by
    rw [← validateDeploymentConfig_valid_iff c catalog]; exact h
  have hdec := (collectedErrors_eq_nil_iff c catalog).mp hnil
  intro s hs
  have hsvc := hdec.2.2.2.1 s hs
  have hauth := ((serviceErrors_eq_nil_iff c catalog s).mp hsvc).2.2.2.2.1
  exact (authConsistency_none_iff _ _ _).mp hauth

/-- C1 witness: the theorem applied to a concrete accepted configuration. -/
theorem valid_config_authType_none_iff_roles_empty_witness :
    validateDeploymentConfig
        { stackName := "local", roles := [], users := [],
          services := [{ serviceId := "demo", portalName := "Demo",
                         host := "demo", authType := AuthType.oauth2Proxy,
                         requiredRoles := ["dev"] }] } ["demo"] =
      ValidationResult.valid
        { stackName := "local", roles := [], users := [],
          services := [{ serviceId := "demo", portalName := "Demo",
                         host := "demo", authType := AuthType.oauth2Proxy,
                         requiredRoles := ["dev"] }] } ∧
    (AuthType.oauth2Proxy = AuthType.none ↔ (["dev"] : List String) = []) := by
  refine ⟨by decide, ?_⟩
  exact valid_config_authType_none_iff_roles_empty
    { stackName := "local", roles := [], users := [],
      services := [{ serviceId := "demo", portalName := "Demo",
                     host := "demo", authType := AuthType.oauth2Proxy,
                     requiredRoles := ["dev"] }] } ["demo"]
    { stackName := "local", roles := [], users := [],
      services := [{ serviceId := "demo", portalName := "Demo",
                     host := "demo", authType := AuthType.oauth2Proxy,
                     requiredRoles := ["dev"] }] } (by decide)
    { serviceId := "demo", portalName := "Demo", host := "demo",
      authType := AuthType.oauth2Proxy, requiredRoles := ["dev"] } (by decide)

/-- C2: for every deployment configuration and every list of route requests
whose hosts are valid (no duplicate, invalid-slug, or reserved host),
`generateTraefikConfig` returns the same output for every permutation of the
routes list. -/
theorem generateTraefikConfig_perm_invariant
    (config : DeploymentConfig) (routes1 routes2 : List RouteRequest)
    (hperm : routes1.Perm routes2)
    (hnodup : (routes1.map (fun r => r.host)).Nodup)
    (hvalid : ∀ r ∈ routes1, isValidSlug r.host = true ∧ r.host ∉ RESERVED_HOSTS) :
    generateTraefikConfig config routes1 = generateTraefikConfig config routes2 := by
  have hnodup2 : (routes2.map (fun r => r.host)).Nodup :=
    ((hperm.map (fun r => r.host)).nodup_iff).mp hnodup
  have hvalid2 : ∀ r ∈ routes2, isValidSlug r.host = true ∧ r.host ∉ RESERVED_HOSTS :=
    fun r hr => hvalid r (hperm.mem_iff.mpr hr)
  have hv1 : validateRouteRequests routes1 = [] :=
    validateRouteRequestsAux_eq_nil_of routes1 [] hnodup
      (fun r hr => ⟨by simp, (hvalid r hr).1, (hvalid r hr).2⟩)
  have hv2 : validateRouteRequests routes2 = [] :=
    validateRouteRequestsAux_eq_nil_of routes2 [] hnodup2
      (fun r hr => ⟨by simp, (hvalid2 r hr).1, (hvalid2 r hr).2⟩)
  have total : ∀ a b : RouteRequest,
      (decide (a.host ≤ b.host)) = true ∨ (decide (b.host ≤ a.host)) = true := by
    intro a b
    rcases le_total a.host b.host with h | h
    · left; simp [h]
    · right; simp [h]
  have hper : (sortRoutes routes1).Perm (sortRoutes routes2) :=
    (sortBy_perm _ routes1).trans (hperm.trans (sortBy_perm _ routes2).symm)
  have hch1 := sortBy_chain' (fun a b : RouteRequest => decide (a.host ≤ b.host))
    total routes1
  have hch2 := sortBy_chain' (fun a b : RouteRequest => decide (a.host ≤ b.host))
    total routes2
  have hch1' : (sortRoutes routes1).Chain' (fun a b => a.host ≤ b.host) :=
    hch1.imp (fun _ _ hab => of_decide_eq_true hab)
  have hch2' : (sortRoutes routes2).Chain' (fun a b => a.host ≤ b.host) :=
    hch2.imp (fun _ _ hab => of_decide_eq_true hab)
  haveI : IsTrans RouteRequest (fun a b => a.host ≤ b.host) :=
    ⟨fun _ _ _ h1 h2 => le_trans h1 h2⟩
  have hpw1 := List.chain'_iff_pairwise.mp hch1'
  have hpw2 := List.chain'_iff_pairwise.mp hch2'
  have hsn1 : ((sortRoutes routes1).map (fun r => r.host)).Nodup :=
    (((sortBy_perm _ routes1).map (fun r => r.host)).nodup_iff).mpr hnodup
  have hsn2 : ((sortRoutes routes2).map (fun r => r.host)).Nodup :=
    (((sortBy_perm _ routes2).map (fun r => r.host)).nodup_iff).mpr hnodup2
  have hne1 : (sortRoutes routes1).Pairwise (fun a b => a.host ≠ b.host) :=
    List.pairwise_map.mp hsn1
  have hne2 : (sortRoutes routes2).Pairwise (fun a b => a.host ≠ b.host) :=
    List.pairwise_map.mp hsn2
  have hstrict1 : (sortRoutes routes1).Pairwise (fun a b => a.host < b.host) :=
    (hpw1.and hne1).imp (fun h => lt_of_le_of_ne h.1 h.2)
  have hstrict2 : (sortRoutes routes2).Pairwise (fun a b => a.host < b.host) :=
    (hpw2.and hne2).imp (fun h => lt_of_le_of_ne h.1 h.2)
  haveI : IsAntisymm RouteRequest (fun a b => a.host < b.host) :=
    ⟨fun _ _ h1 h2 => absurd (lt_trans h1 h2) (lt_irrefl _)⟩
  have hsorteq : sortRoutes routes1 = sortRoutes routes2 :=
    List.eq_of_perm_of_sorted hper hstrict1 hstrict2
  simp only [generateTraefikConfig, hv1, hv2, hsorteq]

/-- C2 witness: two concrete permuted route lists give the same output. -/
theorem generateTraefikConfig_perm_invariant_witness :
    generateTraefikConfig
        { deploymentId := "local", environment := "dev", baseDomain := "localhost",
          useHttps := false, keycloakRealm := "dev" }
        [{ host := "beta", upstream := { containerName := "cb", port := 81 } },
         { host := "alpha", upstream := { containerName := "ca", port := 80 } }] =
      generateTraefikConfig
        { deploymentId := "local", environment := "dev", baseDomain := "localhost",
          useHttps := false, keycloakRealm := "dev" }
        [{ host := "alpha", upstream := { containerName := "ca", port := 80 } },
         { host := "beta", upstream := { containerName := "cb", port := 81 } }] := by
  exact generateTraefikConfig_perm_invariant
    { deploymentId := "local", environment := "dev", baseDomain := "localhost",
      useHttps := false, keycloakRealm := "dev" }
    [{ host := "beta", upstream := { containerName := "cb", port := 81 } },
     { host := "alpha", upstream := { containerName := "ca", port := 80 } }]
    [{ host := "alpha", upstream := { containerName := "ca", port := 80 } },
     { host := "beta", upstream := { containerName := "cb", port := 81 } }]
    (List.Perm.swap
      ({ host := "alpha", upstream := { containerName := "ca", port := 80 } } :
        RouteRequest)
      ({ host := "beta", upstream := { containerName := "cb", port := 81 } } :
        RouteRequest) [])
    (by decide) (by decide)

/-- C3: `validateDeploymentConfig` collects one error entry for every violated
rule instance across all rules (no short-circuit), returns `valid: true`
exactly when no rule is violated (and `valid: false` always carries a
non-empty error list); `assertValidDeploymentConfig` throws exactly when
validation fails, with a message containing the formatted message of every
collected error. -/
theorem validateDeploymentConfig_exhaustive
    (config : ResolvedDeploymentConfig) (catalog : List String) :
    (validateDeploymentConfig config catalog = ValidationResult.valid config ↔
      ((∀ p ∈ config.roles.enum, validateRoleFormat p.2 p.1 = Option.none) ∧
       validateUsersLocalOnly config.users config.stackName = Option.none ∧
       (∀ p ∈ config.users.enum, validateUserConfig p.2 p.1 = [] ∧
         (config.roles.length > 0 →
           validateRolesInAllowList p.2.roles config.roles
             ("user \"" ++ p.2.username ++ "\"")
             ("users[" ++ toString p.1 ++ "].roles") = [])) ∧
       (∀ s ∈ config.services,
         validateServiceIdFormat s.serviceId = Option.none ∧
         validateServiceExists s.serviceId catalog = Option.none ∧
         validateHostFormat s.host s.serviceId = Option.none ∧
         validateNotReservedHost s.host s.serviceId = Option.none ∧
         validateAuthTypeRolesConsistency s.authType s.requiredRoles
           s.serviceId = Option.none ∧
         (config.roles.length > 0 ∧ s.requiredRoles.length > 0 →
           validateRolesInAllowList s.requiredRoles config.roles
             ("service \"" ++ s.serviceId ++ "\"")
             ("services." ++ s.serviceId ++ ".requiredRoles") = [])) ∧
       (∀ p ∈ hostGroups config.services, p.2.length ≤ 1))) ∧
    (∀ errs, validateDeploymentConfig config catalog =
        ValidationResult.invalid errs → errs ≠ []) ∧
    (∀ errs, validateDeploymentConfig config catalog =
        ValidationResult.invalid errs →
      ((∀ p ∈ config.roles.enum, ∀ e, validateRoleFormat p.2 p.1 =
          Option.some e → e ∈ errs) ∧
       (∀ e, validateUsersLocalOnly config.users config.stackName =
          Option.some e → e ∈ errs) ∧
       (∀ p ∈ config.users.enum, ∀ e ∈ userErrors config p.1 p.2, e ∈ errs) ∧
       (∀ s ∈ config.services, ∀ e ∈ serviceErrors config catalog s, e ∈ errs) ∧
       (∀ p ∈ hostGroups config.services, p.2.length > 1 →
         duplicateHostError p.1 p.2 ∈ errs))) ∧
    (validateDeploymentConfig config catalog = ValidationResult.valid config →
      assertValidDeploymentConfig config catalog = Except.ok ()) ∧
    (∀ errs, validateDeploymentConfig config catalog =
        ValidationResult.invalid errs →
      assertValidDeploymentConfig config catalog =
        Except.error ("Deployment configuration validation failed:\n" ++
          jsJoin "\n" (errs.map formatValidationError)) ∧
      ∀ e ∈ errs, (formatValidationError e).data <:+:
        ("Deployment configuration validation failed:\n" ++
          jsJoin "\n" (errs.map formatValidationError)).data) := by
  refine ⟨?_, ?_, ?_, ?_, ?_⟩
  · rw [validateDeploymentConfig_valid_iff, collectedErrors_eq_nil_iff]
    constructor
    · rintro ⟨h1, h2, h3, h4, h5⟩
      exact ⟨h1, h2, fun p hp => (userErrors_eq_nil_iff config p.1 p.2).mp (h3 p hp),
        fun s hs => (serviceErrors_eq_nil_iff config catalog s).mp (h4 s hs), h5⟩
    · rintro ⟨h1, h2, h3, h4, h5⟩
      exact ⟨h1, h2, fun p hp => (userErrors_eq_nil_iff config p.1 p.2).mpr (h3 p hp),
        fun s hs => (serviceErrors_eq_nil_iff config catalog s).mpr (h4 s hs), h5⟩
  · intro errs herrs
    have he := validateDeploymentConfig_invalid config catalog errs herrs
    subst he
    intro hnil
    rw [validateDeploymentConfig_eq, if_pos hnil] at herrs
    cases herrs
  · intro errs herrs
    have he := validateDeploymentConfig_invalid config catalog errs herrs
    subst he
    unfold collectedErrors
    refine ⟨?_, ?_, ?_, ?_, ?_⟩
    · intro p hp e hpe
      refine List.mem_append.mpr (Or.inl (List.mem_append.mpr (Or.inl
        (List.mem_append.mpr (Or.inl (List.mem_append.mpr (Or.inl ?_)))))))
      exact List.mem_filterMap.mpr ⟨p, hp, hpe⟩
    · intro e hpe
      refine List.mem_append.mpr (Or.inl (List.mem_append.mpr (Or.inl
        (List.mem_append.mpr (Or.inl (List.mem_append.mpr (Or.inr ?_)))))))
      simp [hpe]
    · intro p hp e he
      refine List.mem_append.mpr (Or.inl (List.mem_append.mpr (Or.inl
        (List.mem_append.mpr (Or.inr ?_)))))
      exact List.mem_flatMap.mpr ⟨p, hp, he⟩
    · intro s hs e he
      refine List.mem_append.mpr (Or.inl (List.mem_append.mpr (Or.inr ?_)))
      exact List.mem_flatMap.mpr ⟨s, hs, he⟩
    · intro p hp hlen
      refine List.mem_append.mpr (Or.inr ?_)
      refine List.mem_filterMap.mpr ⟨p, hp, ?_⟩
      rw [if_pos hlen]
  · intro hvalid
    unfold assertValidDeploymentConfig
    rw [hvalid]
  · intro errs herrs
    constructor
    · unfold assertValidDeploymentConfig
      rw [herrs]
    · intro e he
      rw [String.data_append]
      have hin : (formatValidationError e).data <:+:
          (jsJoin "\n" (errs.map formatValidationError)).data :=
        infix_jsJoin "\n" (formatValidationError e) (errs.map formatValidationError)
          (List.mem_map_of_mem formatValidationError he)
      exact hin.trans (List.suffix_append _ _).isInfix

/-- C3 witness: the theorem applied to a concrete configuration with a
duplicate host, exhibiting the collected error and the thrown message. -/
theorem validateDeploymentConfig_exhaustive_witness :
    duplicateHostError "app" ["a", "b"] ∈
      collectedErrors
        { stackName := "local", roles := [], users := [],
          services := [{ serviceId := "a", portalName := "A", host := "app",
                         authType := AuthType.none, requiredRoles := [] },
                       { serviceId := "b", portalName := "B", host := "app",
                         authType := AuthType.oauth2Proxy,
                         requiredRoles := ["dev"] }] } ["a", "b"] := by
  exact ((validateDeploymentConfig_exhaustive
    { stackName := "local", roles := [], users := [],
      services := [{ serviceId := "a", portalName := "A", host := "app",
                     authType := AuthType.none, requiredRoles := [] },
                   { serviceId := "b", portalName := "B", host := "app",
                     authType := AuthType.oauth2Proxy,
                     requiredRoles := ["dev"] }] } ["a", "b"]).2.2.1
    (collectedErrors
        { stackName := "local", roles := [], users := [],
          services := [{ serviceId := "a", portalName := "A", host := "app",
                         authType := AuthType.none, requiredRoles := [] },
                       { serviceId := "b", portalName := "B", host := "app",
                         authType := AuthType.oauth2Proxy,
                         requiredRoles := ["dev"] }] } ["a", "b"])
    (by decide)).2.2.2.2 ("app", ["a", "b"]) (by decide) (by decide)

theorem filterMap_ite_prop {α β : Type} (p : α → Prop) [DecidablePred p]
    (g : α → β) (l : List α) :
    (l.filterMap (fun a => if p a then Option.some (g a) else Option.none)) =
      (l.filter (fun a => decide (p a))).map g := by
  induction l with
  | nil => rfl
  | cons x xs ih =>
    by_cases hx : p x
    · simp [hx, ih]
    · simp [hx, ih]

theorem code_of_validateRoleFormat {role : String} {i : Nat} {e : ValidationError}
    (h : validateRoleFormat role i = Option.some e) :
    e.code = "INVALID_ROLE_FORMAT" := by
  unfold validateRoleFormat at h
  split at h
  · cases h
  · cases h; rfl

theorem code_of_validateUsersLocalOnly {users : List UserConfig} {stackName : String}
    {e : ValidationError}
    (h : validateUsersLocalOnly users stackName = Option.some e) :
    e.code = "USERS_NOT_LOCAL" := by
  unfold validateUsersLocalOnly at h
  split at h
  · cases h
  · split at h
    · cases h
    · cases h; rfl

theorem code_of_validateRolesInAllowList {referencedRoles allowList : List String}
    {context path : String} {e : ValidationError}
    (h : e ∈ validateRolesInAllowList referencedRoles allowList context path) :
    e.code = "ROLE_NOT_IN_ALLOWLIST" := by
  unfold validateRolesInAllowList at h
  rcases List.mem_filterMap.mp h with ⟨role, _, hr⟩
  split at hr
  · cases hr
  · cases hr; rfl

theorem code_of_validateUserConfig {u : UserConfig} {i : Nat} {e : ValidationError}
    (h : e ∈ validateUserConfig u i) : e.code ≠ "DUPLICATE_HOST" := by
  unfold validateUserConfig at h
  rcases List.mem_append.mp h with h | h
  · rcases List.mem_append.mp h with h | h
    · rcases List.mem_append.mp h with h | h
      · split at h
        · cases h
        · rcases List.mem_singleton.mp h with rfl; intro hcode; simp at hcode
      · split at h
        · cases h
        · rcases List.mem_singleton.mp h with rfl; intro hcode; simp at hcode
    · split at h
      · rcases List.mem_singleton.mp h with rfl; intro hcode; simp at hcode
      · cases h
  · rcases List.mem_filterMap.mp h with ⟨role, _, hr⟩
    split at hr
    · cases hr
    · cases hr; intro hcode; simp at hcode

theorem code_of_userErrors {config : ResolvedDeploymentConfig} {i : Nat}
    {u : UserConfig} {e : ValidationError} (h : e ∈ userErrors config i u) :
    e.code ≠ "DUPLICATE_HOST" := by
  unfold userErrors at h
  rcases List.mem_append.mp h with h | h
  · exact code_of_validateUserConfig h
  · split at h
    · rw [code_of_validateRolesInAllowList h]; decide
    · cases h

theorem code_of_serviceErrors {config : ResolvedDeploymentConfig}
    {catalog : List String} {s : ResolvedServiceConfig} {e : ValidationError}
    (h : e ∈ serviceErrors config catalog s) : e.code ≠ "DUPLICATE_HOST" := by
  unfold serviceErrors at h
  rcases List.mem_append.mp h with h | h
  · rcases List.mem_append.mp h with h | h
    · rcases List.mem_append.mp h with h | h
      · rcases List.mem_append.mp h with h | h
        · rcases List.mem_append.mp h with h | h
          · unfold validateServiceIdFormat at h
            split at h
            · cases h
            · rcases List.mem_singleton.mp (by simpa using h) with rfl; intro hcode; simp at hcode
          · unfold validateServiceExists at h
            split at h
            · cases h
            · rcases List.mem_singleton.mp (by simpa using h) with rfl; intro hcode; simp at hcode
        · unfold validateHostFormat at h
          split at h
          · cases h
          · rcases List.mem_singleton.mp (by simpa using h) with rfl; intro hcode; simp at hcode
      · unfold validateNotReservedHost at h
        split at h
        · cases h
        · rcases List.mem_singleton.mp (by simpa using h) with rfl; intro hcode; simp at hcode
    · simp only [validateAuthTypeRolesConsistency] at h
      split at h
      · rcases List.mem_singleton.mp (by simpa using h) with rfl; intro hcode; simp at hcode
      · split at h
        · rcases List.mem_singleton.mp (by simpa using h) with rfl; intro hcode; simp at hcode
        · split at h
          · rcases List.mem_singleton.mp (by simpa using h) with rfl; intro hcode; simp at hcode
          · cases h
  · split at h
    · rw [code_of_validateRolesInAllowList h]; decide
    · cases h

theorem duplicated_host_filter_two_le {services : List ResolvedServiceConfig}
    (hdup : ¬ (services.map (fun s => s.host)).Nodup) :
    ∃ H, 2 ≤ (services.filter (fun s => s.host = H)).length := by
  obtain ⟨H, hd⟩ := List.exists_duplicate_iff_not_nodup.mpr hdup
  refine ⟨H, ?_⟩
  have hcount : 2 ≤ (services.map (fun s => s.host)).count H :=
    List.duplicate_iff_two_le_count.mp hd
  rw [List.count_eq_countP, List.countP_map] at hcount
  rw [← List.countP_eq_length_filter]
  refine le_trans hcount (le_of_eq (List.countP_congr ?_))
  intro s _
  simp

/-- C4: a configuration in which two or more services share a host is
rejected, and the `DUPLICATE_HOST` errors are exactly one per duplicated
host (in first-occurrence order), each naming all service ids using that
host. -/
theorem duplicate_hosts_rejected
    (config : ResolvedDeploymentConfig) (catalog : List String)
    (hdup : ¬ (config.services.map (fun s => s.host)).Nodup) :
    validateDeploymentConfig config catalog =
      ValidationResult.invalid (collectedErrors config catalog) ∧
    (collectedErrors config catalog).filter
        (fun e => e.code = "DUPLICATE_HOST") =
      ((dedupFirst (config.services.map (fun s => s.host))).filter
          (fun h => (config.services.filter (fun s => s.host = h)).length > 1)).map
        (fun h => duplicateHostError h
          ((config.services.filter (fun s => s.host = h)).map
            (fun s => s.serviceId))) := by
  have hE : ((hostGroups config.services).filterMap (fun p =>
      if p.2.length > 1 then Option.some (duplicateHostError p.1 p.2)
      else Option.none)) =
      ((dedupFirst (config.services.map (fun s => s.host))).filter
          (fun h => (config.services.filter (fun s => s.host = h)).length > 1)).map
        (fun h => duplicateHostError h
          ((config.services.filter (fun s => s.host = h)).map
            (fun s => s.serviceId))) := by
    rw [hostGroups_eq, List.filterMap_map]
    have := filterMap_ite_prop
      (fun h => ((config.services.filter (fun s => s.host = h)).map
        (fun s => s.serviceId)).length > 1)
      (fun h => duplicateHostError h
        ((config.services.filter (fun s => s.host = h)).map (fun s => s.serviceId)))
      (dedupFirst (config.services.map (fun s => s.host)))
    rw [show ((fun p : String × List String =>
        if p.2.length > 1 then Option.some (duplicateHostError p.1 p.2)
        else Option.none) ∘ (fun h => (h, (config.services.filter
          (fun s => s.host = h)).map (fun s => s.serviceId)))) =
        (fun h => if ((config.services.filter (fun s => s.host = h)).map
            (fun s => s.serviceId)).length > 1 then
          Option.some (duplicateHostError h ((config.services.filter
            (fun s => s.host = h)).map (fun s => s.serviceId)))
        else Option.none) from rfl]
    rw [this]
    congr 1
    apply List.filter_congr
    intro h _
    simp [List.length_map]
  have hfilter : (collectedErrors config catalog).filter
      (fun e => e.code = "DUPLICATE_HOST") =
      ((hostGroups config.services).filterMap (fun p =>
        if p.2.length > 1 then Option.some (duplicateHostError p.1 p.2)
        else Option.none)) := by
    unfold collectedErrors
    rw [List.filter_append, List.filter_append, List.filter_append,
      List.filter_append]
    have h1 : (config.roles.enum.filterMap (fun p =>
        validateRoleFormat p.2 p.1)).filter
        (fun e => e.code = "DUPLICATE_HOST") = [] := by
      rw [List.filter_eq_nil_iff]
      intro e he
      rcases List.mem_filterMap.mp he with ⟨p, _, hp⟩
      simp [code_of_validateRoleFormat hp]
    have h2 : ((validateUsersLocalOnly config.users config.stackName).toList).filter
        (fun e => e.code = "DUPLICATE_HOST") = [] := by
      rw [List.filter_eq_nil_iff]
      intro e he
      rcases hu : validateUsersLocalOnly config.users config.stackName with _ | u
      · rw [hu] at he; cases he
      · rw [hu] at he
        rcases List.mem_singleton.mp (by simpa using he) with rfl
        simp [code_of_validateUsersLocalOnly hu]
    have h3 : ((config.users.enum.flatMap (fun p =>
        userErrors config p.1 p.2)).filter
        (fun e => e.code = "DUPLICATE_HOST")) = [] := by
      rw [List.filter_eq_nil_iff]
      intro e he
      rcases List.mem_flatMap.mp he with ⟨p, _, hp⟩
      simp [code_of_userErrors hp]
    have h4 : ((config.services.flatMap (serviceErrors config catalog)).filter
        (fun e => e.code = "DUPLICATE_HOST")) = [] := by
      rw [List.filter_eq_nil_iff]
      intro e he
      rcases List.mem_flatMap.mp he with ⟨s, _, hs⟩
      simp [code_of_serviceErrors hs]
    have h5 : ((hostGroups config.services).filterMap (fun p =>
        if p.2.length > 1 then Option.some (duplicateHostError p.1 p.2)
        else Option.none)).filter (fun e => e.code = "DUPLICATE_HOST") =
        ((hostGroups config.services).filterMap (fun p =>
        if p.2.length > 1 then Option.some (duplicateHostError p.1 p.2)
        else Option.none)) := by
      rw [List.filter_eq_self]
      intro e he
      rcases List.mem_filterMap.mp he with ⟨p, _, hp⟩
      split at hp
      · cases hp; simp [duplicateHostError]
      · cases hp
    rw [h1, h2, h3, h4, h5]
    simp
  have hnonempty : collectedErrors config catalog ≠ [] := by
    obtain ⟨H, hH⟩ := duplicated_host_filter_two_le hdup
    have hmem : H ∈ dedupFirst (config.services.map (fun s => s.host)) := by
      rw [mem_dedupFirst]
      have hlen : 0 < (config.services.filter (fun s => s.host = H)).length := by
        omega
      obtain ⟨s, hs⟩ := List.exists_mem_of_ne_nil _ (List.length_pos.mp hlen)
      have hsf := List.mem_filter.mp hs
      exact List.mem_map.mpr ⟨s, hsf.1, by simpa using hsf.2⟩
    have hEne : ((dedupFirst (config.services.map (fun s => s.host))).filter
        (fun h => (config.services.filter (fun s => s.host = h)).length > 1)).map
        (fun h => duplicateHostError h
          ((config.services.filter (fun s => s.host = h)).map
            (fun s => s.serviceId))) ≠ [] := by
      intro hc
      rw [List.map_eq_nil_iff, List.filter_eq_nil_iff] at hc
      exact hc H hmem (by simpa using (by omega : 1 <
        (config.services.filter (fun s => s.host = H)).length))
    intro hc
    have : (collectedErrors config catalog).filter
        (fun e => e.code = "DUPLICATE_HOST") = [] := by rw [hc]; rfl
    rw [hfilter, hE] at this
    exact hEne this
  refine ⟨?_, by rw [hfilter, hE]⟩
  rw [validateDeploymentConfig_eq, if_neg hnonempty]

/-- C4 witness: the theorem applied to a concrete configuration with two
services sharing the host `"app"`. -/
theorem duplicate_hosts_rejected_witness :
    validateDeploymentConfig
      { stackName := "local", roles := [], users := [],
        services := [{ serviceId := "a", portalName := "A", host := "app",
                       authType := AuthType.none, requiredRoles := [] },
                     { serviceId := "b", portalName := "B", host := "app",
                       authType := AuthType.oauth2Proxy,
                       requiredRoles := ["dev"] }] } ["a", "b"] =
      ValidationResult.invalid
        (collectedErrors
          { stackName := "local", roles := [], users := [],
            services := [{ serviceId := "a", portalName := "A", host := "app",
                           authType := AuthType.none, requiredRoles := [] },
                         { serviceId := "b", portalName := "B", host := "app",
                           authType := AuthType.oauth2Proxy,
                           requiredRoles := ["dev"] }] } ["a", "b"]) :=
  (duplicate_hosts_rejected
    { stackName := "local", roles := [], users := [],
      services := [{ serviceId := "a", portalName := "A", host := "app",
                     authType := AuthType.none, requiredRoles := [] },
                   { serviceId := "b", portalName := "B", host := "app",
                     authType := AuthType.oauth2Proxy,
                     requiredRoles := ["dev"] }] } ["a", "b"] (by decide)).1

/-- C5 (amended): when the resolved roles allow-list is non-empty, every role
referenced by a user or a service that is absent from it makes
`validateDeploymentConfig` reject the configuration with the corresponding
`ROLE_NOT_IN_ALLOWLIST` error. (When the explicit allow-list is empty the
resolved `roles` list is `[]` and the source skips the check entirely — see
the counterexample theorem.) -/
theorem role_not_in_allowlist_rejected
    (config : ResolvedDeploymentConfig) (catalog : List String)
    (hroles : config.roles ≠ []) :
    (∀ p ∈ config.users.enum, ∀ r ∈ p.2.roles, r ∉ config.roles →
      validateDeploymentConfig config catalog =
        ValidationResult.invalid (collectedErrors config catalog) ∧
      roleNotInAllowListError r config.roles
        ("user \"" ++ p.2.username ++ "\"")
        ("users[" ++ toString p.1 ++ "].roles") ∈
        collectedErrors config catalog) ∧
    (∀ s ∈ config.services, ∀ r ∈ s.requiredRoles, r ∉ config.roles →
      validateDeploymentConfig config catalog =
        ValidationResult.invalid (collectedErrors config catalog) ∧
      roleNotInAllowListError r config.roles
        ("service \"" ++ s.serviceId ++ "\"")
        ("services." ++ s.serviceId ++ ".requiredRoles") ∈
        collectedErrors config catalog) := by
  have hlen : config.roles.length > 0 := by
    cases hc : config.roles with
    | nil => exact absurd hc hroles
    | cons x xs => simp
  have hmain : ∀ e, e ∈ collectedErrors config catalog →
      validateDeploymentConfig config catalog =
        ValidationResult.invalid (collectedErrors config catalog) := by
    intro e he
    rw [validateDeploymentConfig_eq, if_neg (List.ne_nil_of_mem he)]
  constructor
  · intro p hp r hr hnotin
    have herr : roleNotInAllowListError r config.roles
        ("user \"" ++ p.2.username ++ "\"")
        ("users[" ++ toString p.1 ++ "].roles") ∈
        validateRolesInAllowList p.2.roles config.roles
          ("user \"" ++ p.2.username ++ "\"")
          ("users[" ++ toString p.1 ++ "].roles") := by
      unfold validateRolesInAllowList
      refine List.mem_filterMap.mpr ⟨r, hr, ?_⟩
      rw [if_neg (by simpa using hnotin)]
    have huser : roleNotInAllowListError r config.roles
        ("user \"" ++ p.2.username ++ "\"")
        ("users[" ++ toString p.1 ++ "].roles") ∈ userErrors config p.1 p.2 := by
      unfold userErrors
      refine List.mem_append.mpr (Or.inr ?_)
      rw [if_pos hlen]
      exact herr
    have hcoll : roleNotInAllowListError r config.roles
        ("user \"" ++ p.2.username ++ "\"")
        ("users[" ++ toString p.1 ++ "].roles") ∈
        collectedErrors config catalog := by
      unfold collectedErrors
      refine List.mem_append.mpr (Or.inl (List.mem_append.mpr (Or.inl
        (List.mem_append.mpr (Or.inr ?_)))))
      exact List.mem_flatMap.mpr ⟨p, hp, huser⟩
    exact ⟨hmain _ hcoll, hcoll⟩
  · intro s hs r hr hnotin
    have herr : roleNotInAllowListError r config.roles
        ("service \"" ++ s.serviceId ++ "\"")
        ("services." ++ s.serviceId ++ ".requiredRoles") ∈
        validateRolesInAllowList s.requiredRoles config.roles
          ("service \"" ++ s.serviceId ++ "\"")
          ("services." ++ s.serviceId ++ ".requiredRoles") := by
      unfold validateRolesInAllowList
      refine List.mem_filterMap.mpr ⟨r, hr, ?_⟩
      rw [if_neg (by simpa using hnotin)]
    have hsrl : s.requiredRoles.length > 0 := by
      cases hroleslen : s.requiredRoles with
      | nil => rw [hroleslen] at hr; cases hr
      | cons x xs => simp
    have hsvc : roleNotInAllowListError r config.roles
        ("service \"" ++ s.serviceId ++ "\"")
        ("services." ++ s.serviceId ++ ".requiredRoles") ∈
        serviceErrors config catalog s := by
      unfold serviceErrors
      refine List.mem_append.mpr (Or.inr ?_)
      rw [if_pos ⟨hlen, hsrl⟩]
      exact herr
    have hcoll : roleNotInAllowListError r config.roles
        ("service \"" ++ s.serviceId ++ "\"")
        ("services." ++ s.serviceId ++ ".requiredRoles") ∈
        collectedErrors config catalog := by
      unfold collectedErrors
      refine List.mem_append.mpr (Or.inl (List.mem_append.mpr (Or.inr ?_)))
      exact List.mem_flatMap.mpr ⟨s, hs, hsvc⟩
    exact ⟨hmain _ hcoll, hcoll⟩

/-- C5 counterexample: a declaration with an EXPLICIT but EMPTY `roles`
allow-list and a user referencing the role `"admin"` resolves to a
configuration that `validateDeploymentConfig` ACCEPTS — the claim requires a
`ROLE_NOT_IN_ALLOWLIST` rejection in this case, but the source skips rule 7
whenever the resolved roles list is empty. -/
theorem empty_explicit_allowlist_not_rejected :
    validateDeploymentConfig
        (resolveDeploymentConfig "local"
          { roles := Option.some [],
            users := Option.some
              [{ username := "admin", email := "admin@example.com",
                 roles := ["admin"] }],
            services := [] }) [] =
      ValidationResult.valid
        { stackName := "local", roles := [],
          users := [{ username := "admin", email := "admin@example.com",
                      roles := ["admin"] }],
          services := [] } := by decide

/-- C5 witness: the amended theorem applied to a concrete configuration with
a non-empty allow-list and an out-of-list role. -/
theorem role_not_in_allowlist_rejected_witness :
    validateDeploymentConfig
      { stackName := "local", roles := ["admin"], users := [],
        services := [{ serviceId := "demo", portalName := "Demo",
                       host := "demo", authType := AuthType.oauth2Proxy,
                       requiredRoles := ["superadmin"] }] } ["demo"] =
      ValidationResult.invalid
        (collectedErrors
          { stackName := "local", roles := ["admin"], users := [],
            services := [{ serviceId := "demo", portalName := "Demo",
                           host := "demo", authType := AuthType.oauth2Proxy,
                           requiredRoles := ["superadmin"] }] } ["demo"]) :=
  ((role_not_in_allowlist_rejected
    { stackName := "local", roles := ["admin"], users := [],
      services := [{ serviceId := "demo", portalName := "Demo",
                     host := "demo", authType := AuthType.oauth2Proxy,
                     requiredRoles := ["superadmin"] }] } ["demo"]
    (by decide)).2
    { serviceId := "demo", portalName := "Demo", host := "demo",
      authType := AuthType.oauth2Proxy, requiredRoles := ["superadmin"] }
    (by decide) "superadmin" (by decide) (by decide)).1

theorem mapM_except_ok_iff {α β : Type} (f : α → Except String β) (l : List α) :
    (∃ ys, l.mapM f = Except.ok ys) ↔ ∀ x ∈ l, ∃ y, f x = Except.ok y := by
  induction l with
  | nil => simp [List.mapM_nil]; exact ⟨[], rfl⟩
  | cons x xs ih =>
    rw [List.mapM_cons]
    constructor
    · rintro ⟨ys, hys⟩
      cases hfx : f x with
      | error e =>
        rw [hfx] at hys
        simp [Bind.bind, Except.bind] at hys
      | ok y =>
        rw [hfx] at hys
        cases hxs : xs.mapM f with
        | error e =>
          rw [hxs] at hys
          simp [Bind.bind, Except.bind] at hys
        | ok zs =>
          intro a ha
          rcases List.mem_cons.mp ha with rfl | ha
          · exact ⟨y, hfx⟩
          · exact ih.mp ⟨zs, hxs⟩ a ha
    · intro hall
      obtain ⟨y, hy⟩ := hall x (List.mem_cons_self x xs)
      obtain ⟨ys, hys⟩ := ih.mpr (fun a ha => hall a (List.mem_cons_of_mem x ha))
      exact ⟨y :: ys, by rw [hy, hys]; rfl⟩

theorem buildRealmImport_eq (inputs : RealmImportInputs) :
    buildRealmImport inputs =
      (inputs.deploymentConfig.users.mapM (fun user =>
        match recordGet inputs.userPasswords user.username with
        | Option.some password =>
          if password ≠ "" then
            Except.ok (buildKeycloakUser user password inputs.config.keycloakRealm)
          else Except.error (missingPasswordMessage user.username)
        | Option.none => Except.error (missingPasswordMessage user.username))) >>=
      (fun users => Except.ok
        { realm := inputs.config.keycloakRealm
          enabled := true
          sslRequired := if inputs.config.useHttps then "external" else "none"
          registrationAllowed := false
          loginWithEmailAllowed := true
          duplicateEmailsAllowed := false
          resetPasswordAllowed := true
          editUsernameAllowed := false
          bruteForceProtected := true
          realmRoles := buildRealmRoles inputs.deploymentConfig
          clients := buildPortalClient inputs.config inputs.portalClientSecret ::
            (sortBy (fun a b => decide (a.serviceId ≤ b.serviceId))
              inputs.clientRequests).filterMap (fun clientRequest =>
              match recordGet inputs.oauth2ProxyClientSecrets
                  clientRequest.serviceId with
              | Option.some secret =>
                if secret ≠ "" then
                  Option.some (buildOAuth2ProxyClient clientRequest secret)
                else Option.none
              | Option.none => Option.none)
          users := users }) := rfl

/-- C6 (amended): `buildRealmImport` raises (returning no document) exactly
when some declared user's password is absent or empty; a requested sidecar
client whose secret is absent or empty does NOT raise — the client is
silently omitted from the emitted document's client list. -/
theorem buildRealmImport_secret_handling (inputs : RealmImportInputs) :
    ((∃ doc, buildRealmImport inputs = Except.ok doc) ↔
      ∀ u ∈ inputs.deploymentConfig.users,
        ∃ p, recordGet inputs.userPasswords u.username = Option.some p ∧
          p ≠ "") ∧
    (∀ doc, buildRealmImport inputs = Except.ok doc →
      doc.clients = buildPortalClient inputs.config inputs.portalClientSecret ::
        (sortBy (fun a b => decide (a.serviceId ≤ b.serviceId))
          inputs.clientRequests).filterMap (fun clientRequest =>
          match recordGet inputs.oauth2ProxyClientSecrets
              clientRequest.serviceId with
          | Option.some secret =>
            if secret ≠ "" then
              Option.some (buildOAuth2ProxyClient clientRequest secret)
            else Option.none
          | Option.none => Option.none)) := by
  have hok : ∀ u : UserConfig,
      (∃ y, (match recordGet inputs.userPasswords u.username with
        | Option.some password =>
          if password ≠ "" then
            Except.ok (buildKeycloakUser u password inputs.config.keycloakRealm)
          else Except.error (missingPasswordMessage u.username)
        | Option.none => Except.error (missingPasswordMessage u.username)) =
          Except.ok y) ↔
      (∃ p, recordGet inputs.userPasswords u.username = Option.some p ∧
        p ≠ "") := by
    intro u
    cases hrec : recordGet inputs.userPasswords u.username with
    | none =>
      constructor
      · rintro ⟨y, hy⟩; cases hy
      · rintro ⟨p, hp, _⟩; cases hp
    | some password =>
      dsimp only
      by_cases hne : password ≠ ""
      · rw [if_pos hne]
        constructor
        · intro _; exact ⟨password, rfl, hne⟩
        · intro _
          exact ⟨buildKeycloakUser u password inputs.config.keycloakRealm, rfl⟩
      · rw [if_neg hne]
        constructor
        · rintro ⟨y, hy⟩; cases hy
        · rintro ⟨p, hp, hpne⟩
          cases hp
          exact absurd hpne hne
  constructor
  · rw [buildRealmImport_eq]
    cases hm : inputs.deploymentConfig.users.mapM (fun user =>
        match recordGet inputs.userPasswords user.username with
        | Option.some password =>
          if password ≠ "" then
            Except.ok (buildKeycloakUser user password inputs.config.keycloakRealm)
          else Except.error (missingPasswordMessage user.username)
        | Option.none => Except.error (missingPasswordMessage user.username)) with
    | error e =>
      constructor
      · rintro ⟨doc, hdoc⟩
        simp [Bind.bind, Except.bind] at hdoc
      · intro hall
        obtain ⟨ys, hys⟩ := (mapM_except_ok_iff _ _).mpr
          (fun u hu => (hok u).mpr (hall u hu))
        rw [hm] at hys
        cases hys
    | ok us =>
      constructor
      · intro _
        exact fun u hu => (hok u).mp ((mapM_except_ok_iff _ _).mp ⟨us, hm⟩ u hu)
      · intro _
        exact ⟨_, rfl⟩
  · intro doc hdoc
    rw [buildRealmImport_eq] at hdoc
    cases hm : inputs.deploymentConfig.users.mapM (fun user =>
        match recordGet inputs.userPasswords user.username with
        | Option.some password =>
          if password ≠ "" then
            Except.ok (buildKeycloakUser user password inputs.config.keycloakRealm)
          else Except.error (missingPasswordMessage user.username)
        | Option.none => Except.error (missingPasswordMessage user.username)) with
    | error e =>
      rw [hm] at hdoc
      simp [Bind.bind, Except.bind] at hdoc
    | ok us =>
      rw [hm] at hdoc
      cases hdoc
      rfl

/-- C6 counterexample: an input requesting the sidecar client
`oauth2-proxy-demo` while providing NO secret for `"demo"` does not raise:
`buildRealmImport` returns a document whose only client is the portal client
— the requested client is silently omitted, where the claim requires the
generator to raise and emit nothing. -/
theorem buildRealmImport_missing_secret_not_fatal :
    (buildRealmImport
        { config := { deploymentId := "local", environment := "dev",
                      baseDomain := "localhost", useHttps := false,
                      keycloakRealm := "dev" },
          portalClientSecret := "ps",
          oauth2ProxyClientSecrets := [],
          clientRequests := [{ clientId := "oauth2-proxy-demo",
                               serviceId := "demo",
                               redirectUris :=
                                 ["http://demo.localhost/oauth2/callback"],
                               webOrigins := ["http://demo.localhost"] }],
          authzPolicies := [],
          deploymentConfig := { stackName := "local", roles := [],
                                users := [], services := [] },
          userPasswords := [] }).toOption.map
      (fun realm => realm.clients.map (fun c => c.clientId)) =
    Option.some ["portal"] := by decide

/-- C6 witness: the amended theorem applied to a concrete input whose users
all have passwords, exhibiting the emitted document. -/
theorem buildRealmImport_secret_handling_witness :
    (buildRealmImport
        { config := { deploymentId := "local", environment := "dev",
                      baseDomain := "localhost", useHttps := false,
                      keycloakRealm := "dev" },
          portalClientSecret := "ps",
          oauth2ProxyClientSecrets := [],
          clientRequests := [],
          authzPolicies := [],
          deploymentConfig := { stackName := "local", roles := [],
                                users := [{ username := "admin",
                                            email := "admin@example.com",
                                            roles := ["admin"] }],
                                services := [] },
          userPasswords := [("admin", "pw")] }).toOption.isSome = true := by
  obtain ⟨doc, hdoc⟩ := (buildRealmImport_secret_handling
    { config := { deploymentId := "local", environment := "dev",
                  baseDomain := "localhost", useHttps := false,
                  keycloakRealm := "dev" },
      portalClientSecret := "ps",
      oauth2ProxyClientSecrets := [],
      clientRequests := [],
      authzPolicies := [],
      deploymentConfig := { stackName := "local", roles := [],
                            users := [{ username := "admin",
                                        email := "admin@example.com",
                                        roles := ["admin"] }],
                            services := [] },
      userPasswords := [("admin", "pw")] }).1.mpr
    (by
      intro u hu
      rcases List.mem_singleton.mp hu with rfl
      exact ⟨"pw", by decide, by decide⟩)
  rw [hdoc]
  rfl

/-- C7: whenever `generateDescriptor` emits a descriptor, its service entries
are the stable sort of the input by (group, name) under the fixed collator:
a permutation of the input, sorted pairwise under the source comparator (the
missing group replaced by the U+FFFF sentinel, which the Unicode collation
algorithm places after every other string); consequently no ungrouped entry
precedes a grouped entry whose group collates strictly below the sentinel —
every entry without a group sorts after every grouped entry. The spec's
example `{demo: group "apps"}, {docs: no group}, {api: group "apps"}` is
emitted in the order `[api, demo, docs]`. -/
theorem generateDescriptor_sorted
    (config : DeploymentConfig) (services : List Service)
    (options : Option GenerateDescriptorOptions) (d : PortalDescriptor)
    (h : generateDescriptor config services options = Except.ok d) :
    d.services = sortPortalServices services ∧
    (sortPortalServices services).Perm services ∧
    (sortPortalServices services).Chain'
      (fun a b => portalServiceOrder a b ≠ Ordering.gt) ∧
    (sortPortalServices services).Pairwise
      (fun a b => a.group = Option.none → ∀ g, b.group = Option.some g →
        compareStrings g "\uFFFF" ≠ Ordering.lt) ∧
    (sortPortalServices
        [{ id := "demo", name := "Demo", url := "http://demo.localhost",
           protectedFlag := false, authType := AuthType.none,
           group := Option.some "apps" },
         { id := "docs", name := "Docs", url := "http://docs.localhost",
           protectedFlag := false, authType := AuthType.none },
         { id := "api", name := "Api", url := "http://api.localhost",
           protectedFlag := false, authType := AuthType.none,
           group := Option.some "apps" }]).map (fun s => s.id) =
      ["api", "demo", "docs"] := by
  have total : ∀ a b : Service,
      (decide (portalServiceOrder a b ≠ Ordering.gt)) = true ∨
      (decide (portalServiceOrder b a ≠ Ordering.gt)) = true := by
    intro a b
    by_cases hab : portalServiceOrder a b = Ordering.gt
    · right
      rw [decide_eq_true_eq]
      rw [portalServiceOrder_swap b a, hab]
      intro hc
      cases hc
    · left
      rw [decide_eq_true_eq]
      exact hab
  have hserv : d.services = sortPortalServices services := by
    simp only [generateDescriptor] at h
    split at h
    · cases h; rfl
    · cases h
  have hchainB := sortBy_chain'
    (fun a b : Service => decide (portalServiceOrder a b ≠ Ordering.gt))
    total services
  have hchain : (sortPortalServices services).Chain'
      (fun a b => portalServiceOrder a b ≠ Ordering.gt) :=
    hchainB.imp (fun _ _ hab => of_decide_eq_true hab)
  have hproj : (sortPortalServices services).Chain'
      (fun a b => compareStrings (a.group.getD "\uFFFF") (b.group.getD "\uFFFF") ≠
        Ordering.gt) := by
    refine hchain.imp ?_
    intro a b hab
    unfold portalServiceOrder at hab
    by_cases hg : a.group.getD "\uFFFF" = b.group.getD "\uFFFF"
    · rw [hg, compareStrings_self]
      intro hc
      cases hc
    · rwa [if_pos hg] at hab
  haveI : IsTrans Service (fun a b =>
      compareStrings (a.group.getD "\uFFFF") (b.group.getD "\uFFFF") ≠
        Ordering.gt) :=
    ⟨fun _ _ _ h1 h2 => lexNat_trans _ _ _ h1 h2⟩
  have hpw := List.chain'_iff_pairwise.mp hproj
  refine ⟨hserv, sortBy_perm _ services, hchain, ?_, by decide⟩
  refine hpw.imp ?_
  intro a b hab
  intro hga g hgb hlt
  rw [hga, hgb] at hab
  simp only [Option.getD] at hab
  rw [compareStrings_swap, hlt] at hab
  exact hab rfl

/-- C7 witness: the theorem applied at a concrete emission, reproducing the
spec's sorting example. -/
theorem generateDescriptor_sorted_witness :
    (sortPortalServices
        [{ id := "demo", name := "Demo", url := "http://demo.localhost",
           protectedFlag := false, authType := AuthType.none,
           group := Option.some "apps" },
         { id := "docs", name := "Docs", url := "http://docs.localhost",
           protectedFlag := false, authType := AuthType.none },
         { id := "api", name := "Api", url := "http://api.localhost",
           protectedFlag := false, authType := AuthType.none,
           group := Option.some "apps" }]).map (fun s => s.id) =
      ["api", "demo", "docs"] :=
  (generateDescriptor_sorted
    { deploymentId := "local", environment := "dev", baseDomain := "localhost",
      useHttps := false, keycloakRealm := "dev" } [] Option.none
    { version := "1", deploymentId := "local", environment := "dev",
      baseDomain := "localhost", deployment := Option.none,
      portal := { publicUrl := "http://portal.localhost" },
      keycloak := { publicUrl := "http://keycloak.localhost",
                    issuerUrl := "http://keycloak.localhost/realms/dev",
                    realm := "dev" },
      services := [] } (by rfl)).2.2.2.2

theorem isPrefixOf_append_self (p v : String) :
    (p.data).isPrefixOf ((p ++ v).data) = true := by
  rw [String.data_append]
  exact List.isPrefixOf_iff_prefix.mpr (List.prefix_append _ _)

theorem not_isPrefixOf_of_take_ne {p c : List Char} (n : Nat)
    (hp : n ≤ p.length) (hc : n ≤ c.length) (hne : p.take n ≠ c.take n)
    (v : List Char) : p.isPrefixOf (c ++ v) = false := by
  by_contra hcon
  rw [Bool.not_eq_false] at hcon
  obtain ⟨t, ht⟩ := List.isPrefixOf_iff_prefix.mp hcon
  have h1 : (p ++ t).take n = p.take n := List.take_append_of_le_length hp
  have h2 : (c ++ v).take n = c.take n := List.take_append_of_le_length hc
  rw [ht] at h1
  exact hne (h1.symm.trans h2)

theorem string_ne_append_of_take_ne {s lit : String} (x : String) (n : Nat)
    (h14 : n ≤ lit.data.length)
    (hne : s.data.take n ≠ lit.data.take n) : s ≠ lit ++ x := by
  intro hcon
  have hd := congrArg String.data hcon
  rw [String.data_append] at hd
  have h1 : (lit.data ++ x.data).take n = lit.data.take n :=
    List.take_append_of_le_length h14
  rw [← hd] at h1
  exact hne h1

theorem getEnvValue_cons_pos (key pre v : String) (rest : List String)
    (hk : key ++ "=" = pre) :
    getEnvValue ((pre ++ v) :: rest) key = Option.some v := by
  simp only [getEnvValue, hk]
  rw [List.find?_cons_of_pos _ (by exact isPrefixOf_append_self pre v)]
  rw [Option.map_some']
  congr 1
  rw [String.data_append, List.drop_left]

theorem getEnvValue_cons_neg (key pre e : String) (rest : List String)
    (hk : key ++ "=" = pre)
    (h : (pre.data).isPrefixOf e.data = false) :
    getEnvValue (e :: rest) key = getEnvValue rest key := by
  simp only [getEnvValue, hk]
  rw [List.find?_cons_of_neg _ (by rw [h]; exact Bool.false_ne_true)]

/-- C8: `buildOAuth2ProxyEnvs` sets the OIDC issuer URL to the
internally-reachable address exactly in the internal (`"dev"`) mode and to
the externally-advertised address otherwise, and disables issuer
verification (`OAUTH2_PROXY_INSECURE_OIDC_SKIP_ISSUER_VERIFICATION=true`) in
the internal mode and only in that mode. -/
theorem buildOAuth2ProxyEnvs_issuer_by_mode (inputs : OAuth2ProxyEnvInputs) :
    getEnvValue (buildOAuth2ProxyEnvs inputs) "OAUTH2_PROXY_OIDC_ISSUER_URL" =
      Option.some (if inputs.config.environment = "dev"
        then inputs.keycloakInternalIssuerUrl
        else inputs.keycloakPublicIssuerUrl) ∧
    getEnvValue (buildOAuth2ProxyEnvs inputs)
        "OAUTH2_PROXY_INSECURE_OIDC_SKIP_ISSUER_VERIFICATION" =
      Option.some (if inputs.config.environment = "dev" then "true"
        else "false") ∧
    ("OAUTH2_PROXY_INSECURE_OIDC_SKIP_ISSUER_VERIFICATION=true" ∈
        buildOAuth2ProxyEnvs inputs ↔ inputs.config.environment = "dev") := by
  refine ⟨?_, ?_, ?_⟩
  · simp only [buildOAuth2ProxyEnvs]
    rw [getEnvValue_cons_neg "OAUTH2_PROXY_OIDC_ISSUER_URL"
      "OAUTH2_PROXY_OIDC_ISSUER_URL=" _ _ rfl (by decide)]
    rw [getEnvValue_cons_pos "OAUTH2_PROXY_OIDC_ISSUER_URL"
      "OAUTH2_PROXY_OIDC_ISSUER_URL=" _ _ rfl]
  · simp only [buildOAuth2ProxyEnvs]
    rw [getEnvValue_cons_neg "OAUTH2_PROXY_INSECURE_OIDC_SKIP_ISSUER_VERIFICATION"
      "OAUTH2_PROXY_INSECURE_OIDC_SKIP_ISSUER_VERIFICATION=" _ _ rfl (by decide)]
    rw [getEnvValue_cons_neg "OAUTH2_PROXY_INSECURE_OIDC_SKIP_ISSUER_VERIFICATION"
      "OAUTH2_PROXY_INSECURE_OIDC_SKIP_ISSUER_VERIFICATION=" _ _ rfl (by
        rw [String.data_append]
        exact not_isPrefixOf_of_take_ne 14 (by decide) (by decide) (by decide) _)]
    rw [getEnvValue_cons_neg "OAUTH2_PROXY_INSECURE_OIDC_SKIP_ISSUER_VERIFICATION"
      "OAUTH2_PROXY_INSECURE_OIDC_SKIP_ISSUER_VERIFICATION=" _ _ rfl (by
        rw [String.data_append]
        exact not_isPrefixOf_of_take_ne 14 (by decide) (by decide) (by decide) _)]
    rw [getEnvValue_cons_neg "OAUTH2_PROXY_INSECURE_OIDC_SKIP_ISSUER_VERIFICATION"
      "OAUTH2_PROXY_INSECURE_OIDC_SKIP_ISSUER_VERIFICATION=" _ _ rfl (by
        rw [String.data_append]
        exact not_isPrefixOf_of_take_ne 14 (by decide) (by decide) (by decide) _)]
    by_cases hdev : inputs.config.environment = "dev"
    · rw [if_pos hdev, if_pos hdev]
      rw [show ("OAUTH2_PROXY_INSECURE_OIDC_SKIP_ISSUER_VERIFICATION=true" :
          String) = "OAUTH2_PROXY_INSECURE_OIDC_SKIP_ISSUER_VERIFICATION=" ++
          "true" from rfl]
      rw [getEnvValue_cons_pos "OAUTH2_PROXY_INSECURE_OIDC_SKIP_ISSUER_VERIFICATION"
        "OAUTH2_PROXY_INSECURE_OIDC_SKIP_ISSUER_VERIFICATION=" _ _ rfl]
    · rw [if_neg hdev, if_neg hdev]
      rw [show ("OAUTH2_PROXY_INSECURE_OIDC_SKIP_ISSUER_VERIFICATION=false" :
          String) = "OAUTH2_PROXY_INSECURE_OIDC_SKIP_ISSUER_VERIFICATION=" ++
          "false" from rfl]
      rw [getEnvValue_cons_pos "OAUTH2_PROXY_INSECURE_OIDC_SKIP_ISSUER_VERIFICATION"
        "OAUTH2_PROXY_INSECURE_OIDC_SKIP_ISSUER_VERIFICATION=" _ _ rfl]
  · simp only [buildOAuth2ProxyEnvs]
    by_cases hdev : inputs.config.environment = "dev"
    · rw [if_pos hdev, if_pos hdev]
      refine ⟨fun _ => hdev, fun _ => ?_⟩
      simp only [List.mem_cons]
      right; right; right; right; left; trivial
    · rw [if_neg hdev, if_neg hdev]
      refine ⟨fun hmem => ?_, fun h => absurd h hdev⟩
      exfalso
      simp only [List.mem_cons, List.not_mem_nil, or_false] at hmem
      rcases hmem with h | h | h | h | h | h | h | h | h | h | h | h | h | h |
        h | h | h | h | h | h | h | h
      · exact absurd h (by decide)
      · exact absurd h (string_ne_append_of_take_ne _ 14 (by decide) (by decide))
      · exact absurd h (string_ne_append_of_take_ne _ 14 (by decide) (by decide))
      · exact absurd h (string_ne_append_of_take_ne _ 14 (by decide) (by decide))
      · exact absurd h (by decide)
      · exact absurd h (by decide)
      · exact absurd h (string_ne_append_of_take_ne _ 14 (by decide) (by decide))
      · exact absurd h (string_ne_append_of_take_ne _ 14 (by decide) (by decide))
      · exact absurd h (by decide)
      · split at h <;> exact absurd h (by decide)
      · simp only [String.append_assoc] at h
        exact absurd h (string_ne_append_of_take_ne _ 14 (by decide) (by decide))
      · simp only [String.append_assoc] at h
        exact absurd h (string_ne_append_of_take_ne _ 14 (by decide) (by decide))
      · exact absurd h (string_ne_append_of_take_ne _ 14 (by decide) (by decide))
      · exact absurd h (by decide)
      · exact absurd h (by decide)
      · exact absurd h (by decide)
      · exact absurd h (by decide)
      · exact absurd h (by decide)
      · exact absurd h (by decide)
      · exact absurd h (by decide)
      · exact absurd h (by decide)
      · exact absurd h (string_ne_append_of_take_ne _ 14 (by decide) (by decide))

theorem mws_eq (config : DeploymentConfig) (secName : String) :
    (if shouldApplyRateLimiting config then ["rate-limit", "in-flight-req"]
     else []) ++
    (if shouldApplySecurityHeaders config then [secName] else []) =
    (if config.environment = "prod" then ["rate-limit", "in-flight-req"]
     else []) ++
    (if config.environment = "prod" ∨ config.useHttps = true then [secName]
     else []) := by
  by_cases hp : config.environment = "prod" <;>
    by_cases hh : config.useHttps = true <;>
    simp [shouldApplyRateLimiting, shouldApplySecurityHeaders, hp, hh]

/-- C9 (amended): `generateTraefikConfig` attaches middleware to every
emitted router by name and mode: the `redirect-base` router always carries
exactly `["redirect-to-portal"]`; every other router (portal, Keycloak, and
each service router) carries the rate-limiting pair
`["rate-limit", "in-flight-req"]` exactly in the production mode, followed
by exactly one security-header middleware (`keycloak-security-headers` on
the Keycloak router, `security-headers` elsewhere) exactly when in
production mode OR HTTPS is enabled — not only in production. So the full
production chain is rate-limit, in-flight-req, then the security-header
middleware, in that order, and with neither production mode nor HTTPS no
middleware of the chain is attached anywhere. -/
theorem middleware_chain_by_mode (config : DeploymentConfig)
    (routes : List RouteRequest) (out : TraefikDynamicConfig)
    (h : generateTraefikConfig config routes = Except.ok out) :
    ∀ p ∈ out.http.routers,
      p.2.middlewares =
        if p.1 = "redirect-base" then ["redirect-to-portal"]
        else
          (if config.environment = "prod" then ["rate-limit", "in-flight-req"]
           else []) ++
          (if config.environment = "prod" ∨ config.useHttps = true then
             (if p.1 = "core-keycloak" then ["keycloak-security-headers"]
              else ["security-headers"])
           else []) := by
  have hout : out.http.routers =
      [("redirect-base", (buildBaseDomainRedirect config).1),
       ("core-portal", (buildPortalRoute config).1),
       ("core-keycloak", (buildKeycloakRoute config).1)] ++
      ((sortRoutes routes).map (buildServiceRoute config)).map (fun r => r.1) := by
    simp only [generateTraefikConfig] at h
    split at h
    · cases h
    · cases h; rfl
  intro p hp
  rw [hout] at hp
  rcases List.mem_append.mp hp with hp | hp
  · rcases List.mem_cons.mp hp with rfl | hp
    · dsimp only
      rw [if_pos rfl]
      rfl
    rcases List.mem_cons.mp hp with rfl | hp
    · have hrb : ¬(("core-portal" : String) = "redirect-base") := by decide
      have hck : ¬(("core-portal" : String) = "core-keycloak") := by decide
      have hmw : (buildPortalRoute config).1.middlewares =
          (if shouldApplyRateLimiting config then
            ["rate-limit", "in-flight-req"] else []) ++
          (if shouldApplySecurityHeaders config then ["security-headers"]
           else []) := by
        simp [buildPortalRoute, buildRouter]
      dsimp only
      rw [if_neg hrb, if_neg hck, hmw, mws_eq]
    rcases List.mem_cons.mp hp with rfl | hp
    · have hrb : ¬(("core-keycloak" : String) = "redirect-base") := by decide
      have hmw : (buildKeycloakRoute config).1.middlewares =
          (if shouldApplyRateLimiting config then
            ["rate-limit", "in-flight-req"] else []) ++
          (if shouldApplySecurityHeaders config then
            ["keycloak-security-headers"] else []) := by
        simp [buildKeycloakRoute]
      dsimp only
      rw [if_neg hrb, if_pos rfl, hmw, mws_eq]
    cases hp
  · rcases List.mem_map.mp hp with ⟨q, hq, rfl⟩
    rcases List.mem_map.mp hq with ⟨r, _, rfl⟩
    have hname : (buildServiceRoute config r).1.1 = "host-" ++ r.host := rfl
    have hrb : ¬("host-" ++ r.host = "redirect-base") :=
      Ne.symm (string_ne_append_of_take_ne r.host 5 (by decide) (by decide))
    have hck : ¬("host-" ++ r.host = "core-keycloak") :=
      Ne.symm (string_ne_append_of_take_ne r.host 5 (by decide) (by decide))
    have hmw : (buildServiceRoute config r).1.2.middlewares =
        (if shouldApplyRateLimiting config then
          ["rate-limit", "in-flight-req"] else []) ++
        (if shouldApplySecurityHeaders config then ["security-headers"]
         else []) := by
      simp [buildServiceRoute, buildRouter]
    rw [hname, if_neg hrb, if_neg hck, hmw, mws_eq]

/-- C9 counterexample: with `environment = "dev"` and HTTPS enabled (not the
production mode), `generateTraefikConfig` still attaches `security-headers`
to the portal and service routers — middleware from the chain is attached
outside the production-hardening mode, contradicting the claim. -/
theorem security_headers_attached_outside_prod :
    (generateTraefikConfig
        { deploymentId := "local", environment := "dev",
          baseDomain := "localhost", useHttps := true,
          keycloakRealm := "dev" } []).toOption.map
      (fun cfg => cfg.http.routers.map (fun r => (r.1, r.2.middlewares))) =
    Option.some [("redirect-base", ["redirect-to-portal"]),
                 ("core-portal", ["security-headers"]),
                 ("core-keycloak", ["keycloak-security-headers"])] := by decide

/-- C9 witness: the amended theorem applied to the concrete production
emission: the `core-portal` router carries exactly the chain
rate-limit, in-flight-req, security-headers, in that order. -/
theorem middleware_chain_by_mode_witness :
    (buildPortalRoute cfgProdW).1.middlewares =
      ["rate-limit", "in-flight-req", "security-headers"] := by
  rw [middleware_chain_by_mode cfgProdW [] outProdW rfl
      ("core-portal", (buildPortalRoute cfgProdW).1) (by simp [outProdW])]
  rfl

/-- C10: for every configuration and valid route-request list,
`generateTraefikConfig` emits — besides the two core routes — the reserved
`redirect-base` router matching the bare base domain, whose only middleware
`redirect-to-portal` performs a temporary (`permanent: false`, i.e. 302)
redirect of every request (regex `^.*$`) to the portal's public URL. -/
theorem redirect_base_always_emitted (config : DeploymentConfig)
    (routes : List RouteRequest)
    (hv : validateRouteRequests routes = []) :
    ∃ out, generateTraefikConfig config routes = Except.ok out ∧
      (out.http.routers.find? (fun p => p.1 = "redirect-base")) =
        Option.some ("redirect-base",
          { rule := "Host(`" ++ config.baseDomain ++ "`)"
            service := "noop@internal"
            entryPoints := if config.useHttps then ["websecure"] else ["web"]
            middlewares := ["redirect-to-portal"]
            tls := if config.useHttps then
                Option.some { certResolver := Option.some "letsencrypt" }
              else Option.none }) ∧
      (out.http.middlewares.find? (fun p => p.1 = "redirect-to-portal")) =
        Option.some ("redirect-to-portal",
          { redirectRegex := Option.some
              { regex := "^.*$"
                replacement := (if config.useHttps then "https" else "http") ++
                  "://portal." ++ config.baseDomain
                permanent := false } }) ∧
      (∃ r, ("core-portal", r) ∈ out.http.routers) ∧
      (∃ r, ("core-keycloak", r) ∈ out.http.routers) := by
  refine ⟨{ http :=
      { routers :=
          [("redirect-base", (buildBaseDomainRedirect config).1),
           ("core-portal", (buildPortalRoute config).1),
           ("core-keycloak", (buildKeycloakRoute config).1)] ++
          ((sortRoutes routes).map (buildServiceRoute config)).map (fun r => r.1)
        services :=
          [("core-portal", (buildPortalRoute config).2),
           ("core-keycloak", (buildKeycloakRoute config).2)] ++
          ((sortRoutes routes).map (buildServiceRoute config)).map (fun r => r.2)
        middlewares :=
          (if shouldApplySecurityHeaders config then
            [("security-headers", buildSecurityHeadersMiddleware config),
             ("keycloak-security-headers",
               buildKeycloakSecurityHeadersMiddleware config)] else []) ++
          (if shouldApplyRateLimiting config then
            [("rate-limit", buildRateLimitMiddleware),
             ("in-flight-req", buildInFlightReqMiddleware)] else []) ++
          [("redirect-to-portal", (buildBaseDomainRedirect config).2)] } },
    ?_, ?_, ?_, ?_, ?_⟩
  · simp only [generateTraefikConfig, hv]
    rfl
  · simp only [List.cons_append]
    rw [List.find?_cons_of_pos _ (by rfl)]
    rfl
  · by_cases hs : shouldApplySecurityHeaders config = true <;>
      by_cases hr : shouldApplyRateLimiting config = true <;>
      simp only [hs, hr, Bool.not_eq_true, if_true, if_false,
        List.nil_append, List.append_nil, List.cons_append, List.find?] <;>
      rfl
  · exact ⟨(buildPortalRoute config).1, by simp⟩
  · exact ⟨(buildKeycloakRoute config).1, by simp⟩

/-- C10 witness: the theorem applied to a concrete configuration and an
empty (trivially valid) route list. -/
theorem redirect_base_always_emitted_witness :
    ((generateTraefikConfig
        { deploymentId := "local", environment := "dev",
          baseDomain := "localhost", useHttps := false,
          keycloakRealm := "dev" } []).toOption.bind
      (fun o => o.http.middlewares.find?
        (fun p => p.1 = "redirect-to-portal"))).map
      (fun p => p.2.redirectRegex) =
    Option.some (Option.some
      { regex := "^.*$", replacement := "http://portal.localhost",
        permanent := false }) := by
  obtain ⟨out, hout, _, hmid, _⟩ := redirect_base_always_emitted
    { deploymentId := "local", environment := "dev", baseDomain := "localhost",
      useHttps := false, keycloakRealm := "dev" } [] rfl
  rw [hout]
  simp only [Except.toOption, Option.some_bind, hmid, Option.map_some']
  rfl

/-- C8 witness: the theorem applied to a concrete sidecar input in the
internal mode. -/
theorem buildOAuth2ProxyEnvs_issuer_by_mode_witness :
    getEnvValue (buildOAuth2ProxyEnvs
        { config := { deploymentId := "local", environment := "dev",
                      baseDomain := "localhost", useHttps := false,
                      keycloakRealm := "dev" },
          serviceId := "demo",
          keycloakInternalIssuerUrl := "http://local-gatrr-keycloak:8080/realms/dev",
          keycloakPublicIssuerUrl := "http://keycloak.localhost/realms/dev",
          clientSecret := "cs", cookieSecret := "ck",
          upstreamContainerName := "c", upstreamPort := 3000,
          requiredRealmRoles := ["dev", "admin"] })
      "OAUTH2_PROXY_OIDC_ISSUER_URL" =
    Option.some "http://local-gatrr-keycloak:8080/realms/dev" := by
  rw [(buildOAuth2ProxyEnvs_issuer_by_mode
    { config := { deploymentId := "local", environment := "dev",
                  baseDomain := "localhost", useHttps := false,
                  keycloakRealm := "dev" },
      serviceId := "demo",
      keycloakInternalIssuerUrl := "http://local-gatrr-keycloak:8080/realms/dev",
      keycloakPublicIssuerUrl := "http://keycloak.localhost/realms/dev",
      clientSecret := "cs", cookieSecret := "ck",
      upstreamContainerName := "c", upstreamPort := 3000,
      requiredRealmRoles := ["dev", "admin"] }).1]
  rw [if_pos rfl]
